import Mathlib

/-!
Shallow embedding of the order-pricing and fulfillment core of the
ppanel-server repository: the Purchase, Renewal and Recharge order
workflows (internal/logic/public/order) and the subscription-content
handler (internal/logic/subscribe/subscribeLogic.go).

Database query results are supplied through explicit state and
environment records; database write failures are injected through
boolean flags, and the GORM transaction wrapper is modelled by its
commit-or-rollback contract.  Machine `int64` values are modelled as
`Int`; all amounts the workflows accept are far below the overflow
range because of the `MaxOrderAmount` ceiling checks.
-/

deriving instance DecidableEq for Except

namespace PPanel

/-- Order amount limit, from the order package constants: int32 max value. -/
def MaxOrderAmount : Int := 2147483647

/-- Recharge amount limit, from the order package constants. -/
def MaxRechargeAmount : Int := 2000000000

/-- Maximum quantity per order, from the order package constants. -/
def MaxQuantity : Int := 1000

/-- Delay, in minutes, before the deferred close-order task fires. -/
def CloseOrderTimeMinutes : Int := 15

/-- Modelled from the spec: the task kind of the deferred close-order task
(`queue.DeferCloseOrder` is declared in queue/types, which is not part of
the sources); the spec names the kind "close-order". -/
def DeferCloseOrder : String := "close-order"

/-- One entry of a plan's quantity-discount tier table
(`types.SubscribeDiscount`): a quantity threshold carrying a discount
multiplier, represented as an integer percentage. -/
structure DiscountTier where
  quantity : Int
  discount : Int
deriving DecidableEq

/-- A subscription plan (`subscribe` model row), restricted to the fields
the order workflows read.  `discount` is the parsed form of the JSON tier
table: `none` models an empty `Discount` string. -/
structure Plan where
  id : Int
  unitPrice : Int
  discount : Option (List DiscountTier)
  sell : Bool
  inventory : Int
  quota : Int
deriving DecidableEq

/-- Discount rule of a coupon: percentage or fixed, as in the spec. -/
inductive CouponKind where
  | percentage
  | fixed
deriving DecidableEq

/-- A coupon row, restricted to the fields the workflows read.
`subscribe` is the parsed plan allow-list (`tool.StringToInt64Slice`). -/
structure Coupon where
  code : String
  kind : CouponKind
  value : Int
  cap : Int
  count : Int
  usedCount : Int
  userLimit : Int
  subscribe : List Int
deriving DecidableEq

/-- A payment method row: identity, platform, and its fee rule
(percentage plus fixed component, per the spec). -/
structure Payment where
  id : Int
  platform : String
  feePercent : Int
  feeFixed : Int
deriving DecidableEq

/-- A user-subscription row (`user.Subscribe`), restricted to the fields
the purchase and renewal workflows read. -/
structure UserSub where
  id : Int
  subscribeId : Int
  orderId : Int
  token : String
deriving DecidableEq

/-- An order row (`order.Order`), with the fields the workflows write. -/
structure Order where
  userId : Int
  orderNo : String
  parentId : Int
  type : Int
  quantity : Int
  price : Int
  amount : Int
  discount : Int
  giftAmount : Int
  coupon : String
  couponDiscount : Int
  paymentId : Int
  method : String
  feeAmount : Int
  status : Int
  isNew : Bool
  subscribeId : Int
  subscribeToken : String
deriving DecidableEq

/-- Direction of a gift-ledger entry (`log.Gift` type field). -/
inductive GiftType where
  | increase
  | decrease
deriving DecidableEq

/-- A gift-ledger audit entry (`log.Gift`), restricted to the fields the
order workflows write: direction, related order number, amount, and the
resulting balance. -/
structure GiftLog where
  giftType : GiftType
  orderNo : String
  amount : Int
  balance : Int
deriving DecidableEq

/-- The deferred close-order task built after the transaction commits:
payload order number, retry budget (`asynq.MaxRetry`), and scheduled
delay in minutes (`asynq.ProcessIn`). -/
structure CloseOrderTask where
  orderNo : String
  kind : String
  maxRetry : Nat
  delayMinutes : Int
deriving DecidableEq

/-- The slice of backing-store state the order workflows read and write:
the current user's gift balance and subscriptions, the plan table, the
coupon table, the order table and the system log (gift-ledger) table. -/
structure DBState where
  giftAmount : Int
  userSubs : List UserSub
  plans : List Plan
  coupons : List Coupon
  orders : List Order
  giftLogs : List GiftLog
deriving DecidableEq

/-- Injected success flags for the writes inside the fulfillment
transaction: user-balance update, gift-ledger insert, plan inventory
update, order insert. -/
structure TxFlags where
  userUpdateOk : Bool
  giftLogOk : Bool
  subUpdateOk : Bool
  orderInsertOk : Bool
deriving DecidableEq

/-- Per-request environment: the authenticated user's id, the platform
single-subscription flag, the generated trade number, the resolved
payment method, the new-customer answer, write flags and the queue
enqueue outcome. -/
structure Env where
  uid : Int
  singleModel : Bool
  orderNo : String
  payment : Payment
  isNew : Bool
  flags : TxFlags
  enqueueOk : Bool
deriving DecidableEq

/-- Error kinds (`xerr` codes) surfaced by the embedded workflows. -/
inductive Err where
  | invalidAccess
  | invalidParams
  | databaseQueryError
  | databaseInsertError
  | generalError
  | userSubscribeExist
  | subscribeOutOfStock
  | subscribeQuotaLimit
  | couponNotExist
  | couponInsufficientUsage
  | couponNotApplicable
deriving DecidableEq

/-- Outcome of one workflow run: the response (order number or error),
the resulting store state, the deferred task built after a successful
transaction, and whether the enqueue succeeded. -/
structure WorkflowOut where
  resp : Except Err String
  state : DBState
  task : Option CloseOrderTask
  enqueued : Bool
deriving DecidableEq

/-- Purchase request shape (`types.PurchaseOrderRequest`). -/
structure PurchaseReq where
  subscribeId : Int
  quantity : Int
  coupon : String
  payment : Int
deriving DecidableEq

/-- Renewal request shape (`types.RenewalOrderRequest`). -/
structure RenewalReq where
  userSubscribeId : Int
  quantity : Int
  coupon : String
  payment : Int
deriving DecidableEq

/-- Recharge request shape (`types.RechargeOrderRequest`). -/
structure RechargeReq where
  amount : Int
  payment : Int
deriving DecidableEq

/-- Modelled from the spec: `getDiscount` (helper of the order package,
not among the sources) selects the tier with the greatest threshold at
most the quantity, yielding a multiplier in (0,1] represented as a
percentage; no matching tier, or malformed tier data, degrades to 1
(that is, 100 percent).  `bestTier` selects the tier with the greatest
threshold at most the quantity. -/
def bestTier (tiers : List DiscountTier) (qty : Int) : Option DiscountTier :=
  (tiers.filter (fun t => t.quantity ≤ qty)).foldl
    (fun acc t =>
      match acc with
      | none => some t
      | some b => if b.quantity ≤ t.quantity then some t else some b)
    none

/-- Modelled from the spec: the multiplier of the selected tier, when
one matched and its data is well-formed; 100 percent otherwise. -/
def getDiscount (tiers : List DiscountTier) (qty : Int) : Int :=
  match bestTier tiers qty with
  | none => 100
  | some t => if 0 < t.discount ∧ t.discount ≤ 100 then t.discount else 100

/-- Discount percentage applied by a plan at a quantity: 100 when the
plan's `Discount` string is empty, otherwise `getDiscount` on the parsed
tier table. -/
def discountPct (sub : Plan) (qty : Int) : Int :=
  match sub.discount with
  | none => 100
  | some tiers => getDiscount tiers qty

/-- Modelled from the spec: `calculateCoupon` (helper of the order
package, not among the sources). Percentage coupons yield the floor of
amount times the percentage, capped at the coupon's maximum; fixed
coupons yield the minimum of the fixed value and the amount; the result
never exceeds the amount being discounted. -/
def calculateCoupon (amount : Int) (c : Coupon) : Int :=
  match c.kind with
  | .percentage => min (min (amount * c.value / 100) c.cap) amount
  | .fixed => min c.value amount

/-- Modelled from the spec: `calculateFee` (helper of the order package,
not among the sources): a payment-method-specific surcharge combining a
percentage and a fixed component, always nonnegative. -/
def calculateFee (amount : Int) (p : Payment) : Int :=
  max 0 (amount * p.feePercent / 100 + p.feeFixed)

/-- Result of the gift-balance deduction block shared verbatim by the
purchase and renewal workflows. -/
structure GiftStep where
  deduction : Int
  remaining : Int
  newBalance : Int
deriving DecidableEq

/-- The gift-balance deduction block of the purchase and renewal
workflows: when the balance is positive, deduct the whole charge if the
balance covers it, otherwise deduct the entire balance. -/
def applyGift (giftAmount amount : Int) : GiftStep :=
  if 0 < giftAmount then
    if amount ≤ giftAmount then
      ⟨amount, 0, giftAmount - amount⟩
    else
      ⟨giftAmount, amount - giftAmount, 0⟩
  else
    ⟨0, amount, giftAmount⟩

/-- Plan lookup (`SubscribeModel.FindOne`). -/
def findPlan (plans : List Plan) (id : Int) : Option Plan :=
  plans.find? (fun p => p.id = id)

/-- Coupon lookup by code (`CouponModel.FindOneByCode`). -/
def findCoupon (coupons : List Coupon) (code : String) : Option Coupon :=
  coupons.find? (fun c => c.code = code)

/-- User-subscription lookup by id (`UserModel.FindOneUserSubscribe`). -/
def findUserSub (subs : List UserSub) (id : Int) : Option UserSub :=
  subs.find? (fun s => s.id = id)

/-- Count of the user's prior orders referencing a coupon code: the
`count` query run inside a read transaction by both workflows. -/
def couponOrderCount (orders : List Order) (uid : Int) (code : String) : Nat :=
  (orders.filter (fun o => o.userId = uid ∧ o.coupon = code)).length

/-- Count of the user's existing subscriptions to a plan, used by the
purchase quota check. -/
def quotaCount (subs : List UserSub) (subscribeId : Int) : Nat :=
  (subs.filter (fun v => v.subscribeId = subscribeId)).length

/-- The coupon validation-and-valuation block shared verbatim by the
purchase and renewal workflows: an empty code contributes no deduction;
otherwise the coupon must exist, must have remaining global uses (a zero
total count meaning unlimited), must apply to the plan (an empty
allow-list meaning universal), and the user's prior order count for the
code must be below the per-user limit. -/
def couponStep (st : DBState) (uid planId : Int) (code : String)
    (amount : Int) : Except Err Int :=
  if code = "" then .ok 0
  else
    match findCoupon st.coupons code with
    | none => .error .couponNotExist
    | some ci =>
      if ci.count ≠ 0 ∧ ci.count ≤ ci.usedCount then
        .error .couponInsufficientUsage
      else if ci.subscribe ≠ [] ∧ planId ∉ ci.subscribe then
        .error .couponNotApplicable
      else if ci.userLimit ≤ (couponOrderCount st.orders uid code : Int) then
        .error .couponInsufficientUsage
      else
        .ok (calculateCoupon amount ci)

/-- Quantity normalization shared by purchase and renewal: a quantity at
most 0 is set to 1. -/
def normQty (q : Int) : Int := if q ≤ 0 then 1 else q

/-- List price: unit price times (normalized) quantity. -/
def listPriceOf (sub : Plan) (q : Int) : Int := sub.unitPrice * q

/-- Amount after the tiered discount: the floor of list price times the
discount multiplier. -/
def baseAmountOf (sub : Plan) (q : Int) : Int :=
  listPriceOf sub q * discountPct sub q / 100

/-- The gift-deduction writes inside the fulfillment transaction: when a
deduction occurred, persist the user's new balance and append the
gift-ledger audit entry; either write may fail. -/
def giftTxStep (flags : TxFlags) (o : Order) (newGift : Int)
    (st : DBState) : Option DBState :=
  if 0 < o.giftAmount then
    if flags.userUpdateOk then
      if flags.giftLogOk then
        some { st with
          giftAmount := newGift,
          giftLogs := st.giftLogs ++
            [⟨.decrease, o.orderNo, o.giftAmount, newGift⟩] }
      else none
    else none
  else some st

/-- The body of the purchase fulfillment transaction: gift-deduction
writes, then the plan inventory decrement when inventory is not -1, then
the order insert.  `none` models a failed write, which rolls the
transaction back. -/
def purchaseTxBody (flags : TxFlags) (sub : Plan) (o : Order)
    (newGift : Int) (st : DBState) : Option DBState :=
  match giftTxStep flags o newGift st with
  | none => none
  | some st1 =>
    match (if sub.inventory ≠ -1 then
        (if flags.subUpdateOk then
          some { st1 with plans := st1.plans.map (fun p =>
            if p.id = sub.id then
              { sub with inventory := sub.inventory - 1 }
            else p) }
        else none)
      else some st1) with
    | none => none
    | some st2 =>
      if flags.orderInsertOk then
        some { st2 with orders := st2.orders ++ [o] }
      else none

/-- The body of the renewal fulfillment transaction: gift-deduction
writes, then the order insert. -/
def renewalTxBody (flags : TxFlags) (o : Order) (newGift : Int)
    (st : DBState) : Option DBState :=
  match giftTxStep flags o newGift st with
  | none => none
  | some st1 =>
    if flags.orderInsertOk then
      some { st1 with orders := st1.orders ++ [o] }
    else none

/-- Epilogue shared by the workflows, applying the commit-or-rollback
contract of the store transaction: a failed transaction surfaces an
insert error and leaves the prior state; a committed one yields the new
state, the order number, and the deferred close-order task (retry budget
3, delay 15 minutes); the enqueue outcome never alters the response. -/
def finishOrder (env : Env) (st : DBState) (txRes : Option DBState) :
    WorkflowOut :=
  match txRes with
  | none => ⟨.error .databaseInsertError, st, none, false⟩
  | some st2 =>
    ⟨.ok env.orderNo, st2,
      some ⟨env.orderNo, DeferCloseOrder, 3, CloseOrderTimeMinutes⟩,
      env.enqueueOk⟩

/-- The order record built by the purchase workflow. -/
def mkPurchaseOrder (env : Env) (req : PurchaseReq)
    (q price discountAmount c : Int) (g : GiftStep)
    (fee finalAmount : Int) : Order :=
  { userId := env.uid, orderNo := env.orderNo, parentId := 0, type := 1,
    quantity := q, price := price, amount := finalAmount,
    discount := discountAmount, giftAmount := g.deduction,
    coupon := req.coupon, couponDiscount := c,
    paymentId := env.payment.id, method := env.payment.platform,
    feeAmount := fee, status := 1, isNew := env.isNew,
    subscribeId := req.subscribeId, subscribeToken := "" }

/-- The pre-transaction part of the purchase workflow
(`PurchaseLogic.Purchase`): quantity normalization and cap,
single-subscription-mode check, plan lookup, sellable / inventory /
quota checks, tiered discount, amount ceiling, coupon block, gift
deduction, and the fee on the remainder with a second ceiling check.
On success it yields the plan, the order record to insert, and the
gift-deduction outcome. -/
def purchaseCheckout (env : Env) (st : DBState) (req : PurchaseReq) :
    Except Err (Plan × Order × GiftStep) :=
  let q := normQty req.quantity
  if MaxQuantity < q then .error .invalidParams
  else if env.singleModel = true ∧ st.userSubs ≠ [] then
    .error .userSubscribeExist
  else
    match findPlan st.plans req.subscribeId with
    | none => .error .databaseQueryError
    | some sub =>
      if sub.sell = false then .error .generalError
      else if sub.inventory = 0 then .error .subscribeOutOfStock
      else if 0 < sub.quota ∧
          sub.quota ≤ (quotaCount st.userSubs req.subscribeId : Int) then
        .error .subscribeQuotaLimit
      else
        let price := listPriceOf sub q
        let amount := baseAmountOf sub q
        if MaxOrderAmount < amount then .error .invalidParams
        else
          match couponStep st env.uid req.subscribeId req.coupon amount with
          | .error e => .error e
          | .ok c =>
            let g := applyGift st.giftAmount (amount - c)
            if 0 < g.remaining then
              let fee := calculateFee g.remaining env.payment
              if MaxOrderAmount < g.remaining + fee then
                .error .invalidParams
              else
                .ok (sub,
                  mkPurchaseOrder env req q price (price - amount) c g fee
                    (g.remaining + fee), g)
            else
              .ok (sub,
                mkPurchaseOrder env req q price (price - amount) c g 0
                  g.remaining, g)

/-- The purchase workflow: checkout, then the fulfillment transaction
and the deferred close-order task. -/
def Purchase (env : Env) (st : DBState) (req : PurchaseReq) :
    WorkflowOut :=
  match purchaseCheckout env st req with
  | .error e => ⟨.error e, st, none, false⟩
  | .ok (sub, o, g) =>
    finishOrder env st (purchaseTxBody env.flags sub o g.newBalance st)

/-- The order record built by the renewal workflow: operation kind 2,
parent order and token inherited from the user subscription. -/
def mkRenewalOrder (env : Env) (usub : UserSub) (req : RenewalReq)
    (q price discountAmount c : Int) (g : GiftStep)
    (fee finalAmount : Int) : Order :=
  { userId := env.uid, orderNo := env.orderNo, parentId := usub.orderId,
    type := 2, quantity := q, price := price, amount := finalAmount,
    discount := discountAmount, giftAmount := g.deduction,
    coupon := req.coupon, couponDiscount := c,
    paymentId := env.payment.id, method := env.payment.platform,
    feeAmount := fee, status := 1, isNew := false,
    subscribeId := usub.subscribeId, subscribeToken := usub.token }

/-- The pre-transaction part of the renewal workflow
(`RenewalLogic.Renewal`): quantity normalization and cap,
user-subscription and plan lookup, sellable check, tiered discount,
amount ceiling, coupon block, gift deduction, and the fee on the
remainder with a second ceiling check.  No inventory, quota or
single-subscription check is performed. -/
def renewalCheckout (env : Env) (st : DBState) (req : RenewalReq) :
    Except Err (Order × GiftStep) :=
  let q := normQty req.quantity
  if MaxQuantity < q then .error .invalidParams
  else
    match findUserSub st.userSubs req.userSubscribeId with
    | none => .error .databaseQueryError
    | some usub =>
      match findPlan st.plans usub.subscribeId with
      | none => .error .databaseQueryError
      | some sub =>
        if sub.sell = false then .error .generalError
        else
          let price := listPriceOf sub q
          let amount := baseAmountOf sub q
          if MaxOrderAmount < amount then .error .invalidParams
          else
            match couponStep st env.uid usub.subscribeId req.coupon amount with
            | .error e => .error e
            | .ok c =>
              let g := applyGift st.giftAmount (amount - c)
              let fee := if 0 < g.remaining then
                  calculateFee g.remaining env.payment
                else 0
              if MaxOrderAmount < g.remaining + fee then
                .error .invalidParams
              else
                .ok (mkRenewalOrder env usub req q price (price - amount)
                  c g fee (g.remaining + fee), g)

/-- The renewal workflow: checkout, then the fulfillment transaction
(which never touches inventory) and the deferred close-order task. -/
def Renewal (env : Env) (st : DBState) (req : RenewalReq) :
    WorkflowOut :=
  match renewalCheckout env st req with
  | .error e => ⟨.error e, st, none, false⟩
  | .ok (o, g) =>
    finishOrder env st (renewalTxBody env.flags o g.newBalance st)

/-- The order record built by the recharge workflow: operation kind 4,
no plan, discount, coupon or gift involvement. -/
def mkRechargeOrder (env : Env) (req : RechargeReq)
    (fee total : Int) : Order :=
  { userId := env.uid, orderNo := env.orderNo, parentId := 0,
    type := 4, quantity := 0, price := req.amount, amount := total,
    discount := 0, giftAmount := 0, coupon := "",
    couponDiscount := 0, paymentId := env.payment.id,
    method := env.payment.platform, feeAmount := fee, status := 1,
    isNew := env.isNew, subscribeId := 0, subscribeToken := "" }

/-- The recharge workflow (`RechargeLogic.Recharge`): amount bounds,
fee, total ceiling, a single order insert, then the deferred task. -/
def Recharge (env : Env) (st : DBState) (req : RechargeReq) :
    WorkflowOut :=
  if req.amount ≤ 0 then ⟨.error .invalidParams, st, none, false⟩
  else if MaxRechargeAmount < req.amount then
    ⟨.error .invalidParams, st, none, false⟩
  else
    let fee := calculateFee req.amount env.payment
    let total := req.amount + fee
    if MaxOrderAmount < total then ⟨.error .invalidParams, st, none, false⟩
    else
      let o := mkRechargeOrder env req fee total
      finishOrder env st
        (if env.flags.orderInsertOk then
          some { st with orders := st.orders ++ [o] }
        else none)

/-- A node's backing server record (`node.Server`), restricted to the
fields `createExpiredServers` writes. -/
structure ServerRec where
  id : Int
  name : String
  protocols : String
deriving DecidableEq

/-- A proxy node (`node.Node`), restricted to the fields the
subscription handler and `createExpiredServers` use. -/
structure NodeRec where
  name : String
  tags : String
  port : Int
  address : String
  server : ServerRec
  protocol : String
  enabled : Bool
deriving DecidableEq

/-- A user-subscription row as the subscription handler sees it
(`user.Subscribe`): expiry time as a Unix timestamp, lifecycle status,
referenced plan and token. -/
structure UserSubscribeRec where
  id : Int
  userId : Int
  subscribeId : Int
  expireTimeUnix : Int
  status : Int
  token : String
deriving DecidableEq

/-- The plan fields the subscription handler reads: parsed node id list
and node tag list. -/
structure SubPlanRec where
  nodes : List Int
  nodeTags : List String
deriving DecidableEq

/-- Environment of the subscription-content handler: the configured
host, the plan lookup result for the user subscription, and the node
store answer for the plan's node filter. -/
structure SubscribeEnv where
  host : String
  plan : Option SubPlanRec
  nodes : List NodeRec
deriving DecidableEq

/-- `isSubscriptionExpired`: the expiry time lies strictly before now
and is not zero. -/
def isSubscriptionExpired (now : Int) (s : UserSubscribeRec) : Bool :=
  s.expireTimeUnix < now && s.expireTimeUnix ≠ 0

/-- `getFirstHostLine`: the first line of the configured host, that
is, the first element of splitting the host on newlines (the split is
never empty, so the length guard in the source always passes). -/
def getFirstHostLine (host : String) : String :=
  String.mk (host.data.takeWhile (fun ch => ch ≠ '\n'))

/-- `createExpiredServers`: the two placeholder nodes returned for an
expired subscription, both at 127.0.0.1 port 18080 over shadowsocks;
the first is named "Subscribe Expired", the second after the first line
of the configured host. -/
def createExpiredServers (host : String) : List NodeRec :=
  [ { name := "Subscribe Expired"
      tags := ""
      port := 18080
      address := "127.0.0.1"
      server :=
        { id := 1
          name := "Subscribe Expired"
          protocols := "[\x7b\"type\":\"shadowsocks\",\"cipher\":\"aes-256-gcm\",\"port\":1\x7d]" }
      protocol := "shadowsocks"
      enabled := true },
    { name := getFirstHostLine host
      tags := ""
      port := 18080
      address := "127.0.0.1"
      server :=
        { id := 1
          name := "Subscribe Expired"
          protocols := "[\x7b\"type\":\"shadowsocks\",\"cipher\":\"aes-256-gcm\",\"port\":1\x7d]" }
      protocol := "shadowsocks"
      enabled := true } ]

/-- `getUserSubscribe`: token resolution; the lookup result is returned
as-is, with no status or expiry check (the status guard in the source is
commented out). -/
def getUserSubscribe (subs : List UserSubscribeRec) (token : String) :
    Except Err UserSubscribeRec :=
  match subs.find? (fun s => s.token = token) with
  | none => .error .databaseQueryError
  | some s => .ok s

/-- `getServers`: for an expired subscription, return the placeholder
nodes without error; otherwise resolve the plan and answer its node
list (empty when the plan references no nodes and no tags). -/
def getServers (env : SubscribeEnv) (now : Int)
    (usub : UserSubscribeRec) : Except Err (List NodeRec) :=
  if isSubscriptionExpired now usub then
    .ok (createExpiredServers env.host)
  else
    match env.plan with
    | none => .error .databaseQueryError
    | some pl =>
      if pl.nodes = [] ∧ pl.nodeTags = [] then .ok []
      else .ok env.nodes

/-- Running amount after the tiered discount, as recoverable from a
stored order record. -/
def orderStage1 (o : Order) : Int := o.price - o.discount

/-- Running amount after the coupon deduction. -/
def orderStage2 (o : Order) : Int := orderStage1 o - o.couponDiscount

/-- Running amount after the gift-balance deduction. -/
def orderStage3 (o : Order) : Int := orderStage2 o - o.giftAmount

/-- The pricing invariant of a stored order: the final amount equals
list price minus discount, coupon discount and gift deduction plus fee,
and the running amount lies within [0, MaxOrderAmount] after the
discount, coupon, gift and fee stages. -/
def orderInvariant (o : Order) : Prop :=
  o.amount = o.price - o.discount - o.couponDiscount - o.giftAmount
    + o.feeAmount ∧
  (0 ≤ orderStage1 o ∧ orderStage1 o ≤ MaxOrderAmount) ∧
  (0 ≤ orderStage2 o ∧ orderStage2 o ≤ MaxOrderAmount) ∧
  (0 ≤ orderStage3 o ∧ orderStage3 o ≤ MaxOrderAmount) ∧
  (0 ≤ o.amount ∧ o.amount ≤ MaxOrderAmount)

instance (o : Order) : Decidable (orderInvariant o) := by
  unfold orderInvariant; infer_instance

/-- A fee-free payment method fixture. -/
def pay0 : Payment := ⟨7, "epay", 0, 0⟩

/-- A payment method fixture with a one-percent fee. -/
def payFee1 : Payment := ⟨8, "epay", 1, 0⟩

/-- Fixture: all transaction writes succeed. -/
def flags0 : TxFlags := ⟨true, true, true, true⟩

/-- Base environment fixture. -/
def env0 : Env := ⟨9, false, "P1", pay0, true, flags0, true⟩

/-- Environment fixture with single-subscription mode enabled. -/
def envSM : Env := ⟨9, true, "P1", pay0, true, flags0, true⟩

/-- Environment fixture with the one-percent-fee payment method. -/
def envFee : Env := ⟨9, false, "P1", payFee1, true, flags0, true⟩

/-- A sellable plan fixture: unit price 1000, no tiers, inventory 10. -/
def plan0 : Plan := ⟨1, 1000, none, true, 10, 0⟩

/-- A not-for-sale plan fixture. -/
def planNS : Plan := ⟨1, 1000, none, false, 10, 0⟩

/-- An unlimited-inventory plan fixture priced at the order ceiling. -/
def planBig : Plan := ⟨2, 2147483647, none, true, -1, 0⟩

/-- A user-subscription fixture pointing at plan 1. -/
def usub0 : UserSub := ⟨11, 1, 100, "tok"⟩

/-- Store fixture: one sellable plan, no subscriptions. -/
def st0 : DBState := ⟨0, [], [plan0], [], [], []⟩

/-- Store fixture for renewals: one subscription on plan 1. -/
def stR : DBState := ⟨0, [usub0], [plan0], [], [], []⟩

/-- Store fixture: a held subscription and a not-for-sale plan. -/
def stNS : DBState := ⟨0, [usub0], [planNS], [], [], []⟩

/-- Store fixture with the ceiling-priced plan. -/
def stBig : DBState := ⟨0, [], [planBig], [], [], []⟩

/-- Purchase request fixture: plan 1, quantity 3, no coupon. -/
def req0 : PurchaseReq := ⟨1, 3, "", 7⟩

/-- Purchase request fixture against the ceiling-priced plan. -/
def reqBig : PurchaseReq := ⟨2, 1, "", 8⟩

/-- Purchase request fixture with an unknown coupon code. -/
def reqC5 : PurchaseReq := ⟨1, 1, "NOPE", 7⟩

/-- Renewal request fixture for subscription 11. -/
def reqR : RenewalReq := ⟨11, 3, "", 7⟩

/-- The order record the base purchase fixture stores. -/
def oP1 : Order :=
  ⟨9, "P1", 0, 1, 3, 3000, 3000, 0, 0, "", 0, 7, "epay", 0, 1, true, 1, ""⟩

/-- A sold-out plan fixture. -/
def planOOS : Plan := ⟨3, 1000, none, true, 0, 0⟩

/-- Store fixture with the sold-out plan. -/
def stOOS : DBState := ⟨0, [], [planOOS], [], [], []⟩

/-- An expired user-subscription fixture (expiry 50, before now=100). -/
def usubX : UserSubscribeRec := ⟨1, 2, 3, 50, 3, "t"⟩

/-- Subscription-handler environment fixture with a two-line host. -/
def subEnvX : SubscribeEnv := ⟨"example.com\nalt.example.com", none, []⟩

lemma getDiscount_bounds (tiers : List DiscountTier) (q : Int) :
    1 ≤ getDiscount tiers q ∧ getDiscount tiers q ≤ 100 := by
  unfold getDiscount
  cases bestTier tiers q with
  | none => norm_num
  | some t =>
    dsimp only
    split <;> omega

lemma discountPct_bounds (sub : Plan) (q : Int) :
    1 ≤ discountPct sub q ∧ discountPct sub q ≤ 100 := by
  unfold discountPct
  cases sub.discount with
  | none => norm_num
  | some tiers => exact getDiscount_bounds tiers q

lemma baseAmountOf_bounds (sub : Plan) (q : Int)
    (hu : 0 ≤ sub.unitPrice) (hq : 0 ≤ q) :
    0 ≤ baseAmountOf sub q ∧ baseAmountOf sub q ≤ listPriceOf sub q := by
  obtain ⟨h1, h2⟩ := discountPct_bounds sub q
  unfold baseAmountOf listPriceOf
  have hp : 0 ≤ sub.unitPrice * q := mul_nonneg hu hq
  constructor
  · exact Int.ediv_nonneg (by nlinarith) (by norm_num)
  · have hb : sub.unitPrice * q * discountPct sub q ≤
        sub.unitPrice * q * 100 := by nlinarith
    have hd := Int.ediv_le_ediv (c := 100) (by norm_num) hb
    have hc : sub.unitPrice * q * 100 / 100 = sub.unitPrice * q :=
      Int.mul_ediv_cancel _ (by norm_num)
    omega

lemma normQty_pos (q : Int) : 1 ≤ normQty q := by
  unfold normQty; split <;> omega

lemma calculateCoupon_bounds (amount : Int) (c : Coupon)
    (ha : 0 ≤ amount) (hv : 0 ≤ c.value) (hc : 0 ≤ c.cap) :
    0 ≤ calculateCoupon amount c ∧ calculateCoupon amount c ≤ amount := by
  unfold calculateCoupon
  cases c.kind with
  | percentage =>
    have h0 : 0 ≤ amount * c.value / 100 :=
      Int.ediv_nonneg (by positivity) (by norm_num)
    exact ⟨le_min (le_min h0 hc) ha, min_le_right _ _⟩
  | fixed => exact ⟨le_min hv ha, min_le_right _ _⟩

lemma calculateFee_nonneg (amount : Int) (p : Payment) :
    0 ≤ calculateFee amount p := le_max_left 0 _

lemma applyGift_spec (b a : Int) (hb : 0 ≤ b) (ha : 0 ≤ a) :
    0 ≤ (applyGift b a).deduction ∧
    (applyGift b a).deduction ≤ b ∧
    (applyGift b a).deduction ≤ a ∧
    (applyGift b a).remaining = a - (applyGift b a).deduction ∧
    0 ≤ (applyGift b a).remaining ∧
    (applyGift b a).newBalance = b - (applyGift b a).deduction ∧
    0 ≤ (applyGift b a).newBalance := by
  unfold applyGift
  split
  · split <;> (dsimp only) <;> omega
  · dsimp only; omega

lemma couponStep_ok_bounds (st : DBState) (uid pid : Int)
    (code : String) (amount c : Int) (ha : 0 ≤ amount)
    (hcs : ∀ cp ∈ st.coupons, 0 ≤ cp.value ∧ 0 ≤ cp.cap)
    (h : couponStep st uid pid code amount = .ok c) :
    0 ≤ c ∧ c ≤ amount := by
  unfold couponStep at h
  split at h
  · cases h; omega
  · cases hf : findCoupon st.coupons code with
    | none => rw [hf] at h; cases h
    | some ci =>
      rw [hf] at h
      have hm : ci ∈ st.coupons := by
        unfold findCoupon at hf
        exact List.mem_of_find?_eq_some hf
      dsimp only at h
      split at h
      · cases h
      · split at h
        · cases h
        · split at h
          · cases h
          · cases h
            exact calculateCoupon_bounds amount ci ha (hcs ci hm).1
              (hcs ci hm).2

lemma giftTxStep_some (flags : TxFlags) (o : Order) (newGift : Int)
    (st st1 : DBState) (h : giftTxStep flags o newGift st = some st1) :
    st1.orders = st.orders ∧ st1.plans = st.plans ∧
    st1.userSubs = st.userSubs ∧ st1.coupons = st.coupons ∧
    st1.giftAmount =
      (if 0 < o.giftAmount then newGift else st.giftAmount) ∧
    st1.giftLogs = (if 0 < o.giftAmount then
      st.giftLogs ++ [⟨.decrease, o.orderNo, o.giftAmount, newGift⟩]
      else st.giftLogs) := by
  unfold giftTxStep at h
  split at h
  · rename_i hpos
    split at h
    · split at h
      · injection h with h
        subst h
        simp [hpos]
      · cases h
    · cases h
  · rename_i hneg
    injection h with h
    subst h
    simp [hneg]

lemma purchaseTxBody_some (flags : TxFlags) (sub : Plan) (o : Order)
    (newGift : Int) (st st2 : DBState)
    (h : purchaseTxBody flags sub o newGift st = some st2) :
    st2.orders = st.orders ++ [o] ∧
    st2.giftAmount =
      (if 0 < o.giftAmount then newGift else st.giftAmount) ∧
    st2.giftLogs = (if 0 < o.giftAmount then
      st.giftLogs ++ [⟨.decrease, o.orderNo, o.giftAmount, newGift⟩]
      else st.giftLogs) ∧
    st2.plans = (if sub.inventory ≠ -1 then
      st.plans.map (fun p => if p.id = sub.id then
        { sub with inventory := sub.inventory - 1 } else p)
      else st.plans) ∧
    st2.userSubs = st.userSubs ∧ st2.coupons = st.coupons := by
  unfold purchaseTxBody at h
  cases hg : giftTxStep flags o newGift st with
  | none => rw [hg] at h; cases h
  | some st1 =>
    rw [hg] at h
    obtain ⟨e1, e2, e3, e4, e5, e6⟩ := giftTxStep_some _ _ _ _ _ hg
    dsimp only at h
    split at h
    · cases h
    · rename_i stM heq
      split at h
      · injection h with h
        subst h
        split at heq
        · rename_i hinv
          split at heq
          · injection heq with heq
            subst heq
            simp [hinv, e1, e2, e3, e4, e5, e6]
          · cases heq
        · rename_i hinv
          injection heq with heq
          subst heq
          simp [hinv, e1, e2, e3, e4, e5, e6]
      · cases h

lemma renewalTxBody_some (flags : TxFlags) (o : Order) (newGift : Int)
    (st st2 : DBState)
    (h : renewalTxBody flags o newGift st = some st2) :
    st2.orders = st.orders ++ [o] ∧
    st2.giftAmount =
      (if 0 < o.giftAmount then newGift else st.giftAmount) ∧
    st2.giftLogs = (if 0 < o.giftAmount then
      st.giftLogs ++ [⟨.decrease, o.orderNo, o.giftAmount, newGift⟩]
      else st.giftLogs) ∧
    st2.plans = st.plans ∧
    st2.userSubs = st.userSubs ∧ st2.coupons = st.coupons := by
  unfold renewalTxBody at h
  cases hg : giftTxStep flags o newGift st with
  | none => rw [hg] at h; cases h
  | some st1 =>
    rw [hg] at h
    obtain ⟨e1, e2, e3, e4, e5, e6⟩ := giftTxStep_some _ _ _ _ _ hg
    dsimp only at h
    split at h
    · injection h with h
      subst h
      simp [e1, e2, e3, e4, e5, e6]
    · cases h

lemma Purchase_cases (env : Env) (st : DBState) (req : PurchaseReq) :
    (∃ e, purchaseCheckout env st req = .error e ∧
      Purchase env st req = ⟨.error e, st, none, false⟩) ∨
    (∃ sub o g, purchaseCheckout env st req = .ok (sub, o, g) ∧
      Purchase env st req =
        finishOrder env st (purchaseTxBody env.flags sub o g.newBalance st)) := by
  unfold Purchase
  cases hc : purchaseCheckout env st req with
  | error e => left; exact ⟨e, rfl, rfl⟩
  | ok x =>
    obtain ⟨sub, o, g⟩ := x
    right
    exact ⟨sub, o, g, rfl, rfl⟩

lemma Renewal_cases (env : Env) (st : DBState) (req : RenewalReq) :
    (∃ e, renewalCheckout env st req = .error e ∧
      Renewal env st req = ⟨.error e, st, none, false⟩) ∨
    (∃ o g, renewalCheckout env st req = .ok (o, g) ∧
      Renewal env st req =
        finishOrder env st (renewalTxBody env.flags o g.newBalance st)) := by
  unfold Renewal
  cases hc : renewalCheckout env st req with
  | error e => left; exact ⟨e, rfl, rfl⟩
  | ok x =>
    obtain ⟨o, g⟩ := x
    right
    exact ⟨o, g, rfl, rfl⟩

lemma finishOrder_none (env : Env) (st : DBState) :
    finishOrder env st none = ⟨.error .databaseInsertError, st, none, false⟩ :=
  rfl

lemma finishOrder_some (env : Env) (st st2 : DBState) :
    finishOrder env st (some st2) =
      ⟨.ok env.orderNo, st2,
        some ⟨env.orderNo, DeferCloseOrder, 3, CloseOrderTimeMinutes⟩,
        env.enqueueOk⟩ :=
  rfl

lemma Purchase_error_state (env : Env) (st : DBState)
    (req : PurchaseReq) (e : Err)
    (h : (Purchase env st req).resp = .error e) :
    (Purchase env st req).state = st ∧
    (Purchase env st req).task = none := by
  rcases Purchase_cases env st req with ⟨e2, hc, hP⟩ | ⟨sub, o, g, hc, hP⟩
  · rw [hP]
    exact ⟨rfl, rfl⟩
  · rw [hP] at h ⊢
    cases ht : purchaseTxBody env.flags sub o g.newBalance st with
    | none => rw [finishOrder_none]; exact ⟨rfl, rfl⟩
    | some st2 =>
      rw [ht, finishOrder_some] at h
      cases h

lemma Purchase_ok_inv (env : Env) (st : DBState) (req : PurchaseReq)
    (n : String) (h : (Purchase env st req).resp = .ok n) :
    ∃ sub o g st2, purchaseCheckout env st req = .ok (sub, o, g) ∧
      purchaseTxBody env.flags sub o g.newBalance st = some st2 ∧
      (Purchase env st req).state = st2 ∧ n = env.orderNo ∧
      (Purchase env st req).task =
        some ⟨env.orderNo, DeferCloseOrder, 3, CloseOrderTimeMinutes⟩ := by
  rcases Purchase_cases env st req with ⟨e2, hc, hP⟩ | ⟨sub, o, g, hc, hP⟩
  · rw [hP] at h; cases h
  · rw [hP] at h ⊢
    cases ht : purchaseTxBody env.flags sub o g.newBalance st with
    | none => rw [ht, finishOrder_none] at h; cases h
    | some st2 =>
      rw [ht, finishOrder_some] at h
      rw [finishOrder_some]
      refine ⟨sub, o, g, st2, hc, ht, rfl, ?_, rfl⟩
      injection h with h
      exact h.symm

lemma Renewal_error_state (env : Env) (st : DBState)
    (req : RenewalReq) (e : Err)
    (h : (Renewal env st req).resp = .error e) :
    (Renewal env st req).state = st ∧
    (Renewal env st req).task = none := by
  rcases Renewal_cases env st req with ⟨e2, hc, hP⟩ | ⟨o, g, hc, hP⟩
  · rw [hP]
    exact ⟨rfl, rfl⟩
  · rw [hP] at h ⊢
    cases ht : renewalTxBody env.flags o g.newBalance st with
    | none => rw [finishOrder_none]; exact ⟨rfl, rfl⟩
    | some st2 =>
      rw [ht, finishOrder_some] at h
      cases h

lemma Renewal_ok_inv (env : Env) (st : DBState) (req : RenewalReq)
    (n : String) (h : (Renewal env st req).resp = .ok n) :
    ∃ o g st2, renewalCheckout env st req = .ok (o, g) ∧
      renewalTxBody env.flags o g.newBalance st = some st2 ∧
      (Renewal env st req).state = st2 ∧ n = env.orderNo ∧
      (Renewal env st req).task =
        some ⟨env.orderNo, DeferCloseOrder, 3, CloseOrderTimeMinutes⟩ := by
  rcases Renewal_cases env st req with ⟨e2, hc, hP⟩ | ⟨o, g, hc, hP⟩
  · rw [hP] at h; cases h
  · rw [hP] at h ⊢
    cases ht : renewalTxBody env.flags o g.newBalance st with
    | none => rw [ht, finishOrder_none] at h; cases h
    | some st2 =>
      rw [ht, finishOrder_some] at h
      rw [finishOrder_some]
      refine ⟨o, g, st2, hc, ht, rfl, ?_, rfl⟩
      injection h with h
      exact h.symm

lemma MaxOrderAmount_pos : (0 : Int) ≤ MaxOrderAmount := by
  unfold MaxOrderAmount; norm_num

lemma purchaseCheckout_ok_inv (env : Env) (st : DBState)
    (req : PurchaseReq) (sub : Plan) (o : Order) (g : GiftStep)
    (h : purchaseCheckout env st req = .ok (sub, o, g)) :
    findPlan st.plans req.subscribeId = some sub ∧
    sub.sell = true ∧ sub.inventory ≠ 0 ∧
    normQty req.quantity ≤ MaxQuantity ∧
    baseAmountOf sub (normQty req.quantity) ≤ MaxOrderAmount ∧
    ∃ c, couponStep st env.uid req.subscribeId req.coupon
        (baseAmountOf sub (normQty req.quantity)) = .ok c ∧
      g = applyGift st.giftAmount
        (baseAmountOf sub (normQty req.quantity) - c) ∧
      o = mkPurchaseOrder env req (normQty req.quantity)
        (listPriceOf sub (normQty req.quantity))
        (listPriceOf sub (normQty req.quantity) -
          baseAmountOf sub (normQty req.quantity)) c g o.feeAmount
        o.amount ∧
      o.feeAmount = (if 0 < g.remaining then
        calculateFee g.remaining env.payment else 0) ∧
      o.amount = g.remaining + o.feeAmount ∧
      o.amount ≤ MaxOrderAmount := by
  simp only [purchaseCheckout] at h
  split at h
  · cases h
  · rename_i hq
    split at h
    · cases h
    · split at h
      · cases h
      · rename_i sub2 hplan
        split at h
        · cases h
        · rename_i hsell
          split at h
          · cases h
          · rename_i hinv
            split at h
            · cases h
            · split at h
              · cases h
              · rename_i hmax
                split at h
                · cases h
                · rename_i c hcoup
                  split at h
                  · rename_i hrem
                    split at h
                    · cases h
                    · rename_i hfee
                      simp only [Except.ok.injEq, Prod.mk.injEq] at h
                      obtain ⟨rfl, rfl, rfl⟩ := h
                      refine ⟨hplan, by simpa using hsell, hinv,
                        by omega, by omega, c, hcoup, rfl, ?_, ?_, ?_, ?_⟩
                      · simp [mkPurchaseOrder, hrem]
                      · simp [mkPurchaseOrder, hrem]
                      · simp [mkPurchaseOrder]
                      · simp only [mkPurchaseOrder]
                        have := MaxOrderAmount_pos
                        omega
                  · rename_i hrem
                    simp only [Except.ok.injEq, Prod.mk.injEq] at h
                    obtain ⟨rfl, rfl, rfl⟩ := h
                    refine ⟨hplan, by simpa using hsell, hinv,
                      by omega, by omega, c, hcoup, rfl, ?_, ?_, ?_, ?_⟩
                    · simp [mkPurchaseOrder, hrem]
                    · simp [mkPurchaseOrder, hrem]
                    · simp [mkPurchaseOrder]
                    · simp only [mkPurchaseOrder]
                      have := MaxOrderAmount_pos
                      omega

lemma renewalCheckout_ok_inv (env : Env) (st : DBState)
    (req : RenewalReq) (o : Order) (g : GiftStep)
    (h : renewalCheckout env st req = .ok (o, g)) :
    ∃ usub sub,
      findUserSub st.userSubs req.userSubscribeId = some usub ∧
      findPlan st.plans usub.subscribeId = some sub ∧
      sub.sell = true ∧
      normQty req.quantity ≤ MaxQuantity ∧
      baseAmountOf sub (normQty req.quantity) ≤ MaxOrderAmount ∧
      ∃ c, couponStep st env.uid usub.subscribeId req.coupon
          (baseAmountOf sub (normQty req.quantity)) = .ok c ∧
        g = applyGift st.giftAmount
          (baseAmountOf sub (normQty req.quantity) - c) ∧
        o = mkRenewalOrder env usub req (normQty req.quantity)
          (listPriceOf sub (normQty req.quantity))
          (listPriceOf sub (normQty req.quantity) -
            baseAmountOf sub (normQty req.quantity)) c g o.feeAmount
          o.amount ∧
        o.feeAmount = (if 0 < g.remaining then
          calculateFee g.remaining env.payment else 0) ∧
        o.amount = g.remaining + o.feeAmount ∧
        o.amount ≤ MaxOrderAmount := by
  simp only [renewalCheckout] at h
  split at h
  · cases h
  · rename_i hq
    split at h
    · cases h
    · rename_i usub husub
      split at h
      · cases h
      · rename_i sub2 hplan
        split at h
        · cases h
        · rename_i hsell
          split at h
          · cases h
          · rename_i hmax
            split at h
            · cases h
            · rename_i c hcoup
              by_cases hrem : 0 < (applyGift st.giftAmount
                  (baseAmountOf sub2 (normQty req.quantity) - c)).remaining
              · rw [if_pos hrem] at h
                split at h
                · cases h
                · rename_i hfee
                  simp only [Except.ok.injEq, Prod.mk.injEq] at h
                  obtain ⟨rfl, rfl⟩ := h
                  refine ⟨usub, sub2, husub, hplan, by simpa using hsell,
                    by omega, by omega, c, hcoup, rfl, ?_, ?_, ?_, ?_⟩
                  · simp [mkRenewalOrder, hrem]
                  · simp [mkRenewalOrder, hrem]
                  · simp [mkRenewalOrder]
                  · simp only [mkRenewalOrder]
                    omega
              · rw [if_neg hrem] at h
                split at h
                · cases h
                · rename_i hfee
                  simp only [Except.ok.injEq, Prod.mk.injEq] at h
                  obtain ⟨rfl, rfl⟩ := h
                  refine ⟨usub, sub2, husub, hplan, by simpa using hsell,
                    by omega, by omega, c, hcoup, rfl, ?_, ?_, ?_, ?_⟩
                  · simp [mkRenewalOrder, hrem]
                  · simp [mkRenewalOrder, hrem]
                  · simp [mkRenewalOrder]
                  · simp only [mkRenewalOrder]
                    omega

lemma applyGift_eqs (b a : Int) :
    (applyGift b a).remaining = a - (applyGift b a).deduction ∧
    (applyGift b a).newBalance = b - (applyGift b a).deduction := by
  unfold applyGift
  split
  · split <;> dsimp only <;> omega
  · dsimp only
    omega

lemma findPlan_mem (plans : List Plan) (id : Int) (p : Plan)
    (h : findPlan plans id = some p) : p ∈ plans := by
  unfold findPlan at h
  exact List.mem_of_find?_eq_some h

lemma Purchase_quantity_reject (env : Env) (st : DBState)
    (req : PurchaseReq) (hq : MaxQuantity < normQty req.quantity) :
    Purchase env st req = ⟨.error .invalidParams, st, none, false⟩ := by
  simp only [Purchase, purchaseCheckout]
  rw [if_pos hq]

lemma Purchase_single_reject (env : Env) (st : DBState)
    (req : PurchaseReq) (hq : ¬ MaxQuantity < normQty req.quantity)
    (hsm : env.singleModel = true) (hsubs : st.userSubs ≠ []) :
    Purchase env st req = ⟨.error .userSubscribeExist, st, none, false⟩ := by
  simp only [Purchase, purchaseCheckout]
  rw [if_neg hq, if_pos ⟨hsm, hsubs⟩]

lemma Purchase_notsell_reject (env : Env) (st : DBState)
    (req : PurchaseReq) (sub : Plan)
    (hq : ¬ MaxQuantity < normQty req.quantity)
    (hsm : ¬ (env.singleModel = true ∧ st.userSubs ≠ []))
    (hplan : findPlan st.plans req.subscribeId = some sub)
    (hsell : sub.sell = false) :
    Purchase env st req = ⟨.error .generalError, st, none, false⟩ := by
  simp only [Purchase, purchaseCheckout]
  rw [if_neg hq, if_neg hsm, hplan]
  dsimp only
  rw [if_pos hsell]

lemma Purchase_outOfStock_reject (env : Env) (st : DBState)
    (req : PurchaseReq) (sub : Plan)
    (hq : ¬ MaxQuantity < normQty req.quantity)
    (hsm : ¬ (env.singleModel = true ∧ st.userSubs ≠ []))
    (hplan : findPlan st.plans req.subscribeId = some sub)
    (hsell : sub.sell = true) (hinv : sub.inventory = 0) :
    Purchase env st req = ⟨.error .subscribeOutOfStock, st, none, false⟩ := by
  simp only [Purchase, purchaseCheckout]
  rw [if_neg hq, if_neg hsm, hplan]
  dsimp only
  rw [if_neg (by simp [hsell]), if_pos hinv]

lemma Purchase_quota_reject (env : Env) (st : DBState)
    (req : PurchaseReq) (sub : Plan)
    (hq : ¬ MaxQuantity < normQty req.quantity)
    (hsm : ¬ (env.singleModel = true ∧ st.userSubs ≠ []))
    (hplan : findPlan st.plans req.subscribeId = some sub)
    (hsell : sub.sell = true) (hinv : sub.inventory ≠ 0)
    (hquota : 0 < sub.quota ∧
      sub.quota ≤ (quotaCount st.userSubs req.subscribeId : Int)) :
    Purchase env st req = ⟨.error .subscribeQuotaLimit, st, none, false⟩ := by
  simp only [Purchase, purchaseCheckout]
  rw [if_neg hq, if_neg hsm, hplan]
  dsimp only
  rw [if_neg (by simp [hsell]), if_neg hinv, if_pos hquota]

lemma Purchase_ceiling_reject (env : Env) (st : DBState)
    (req : PurchaseReq) (sub : Plan)
    (hq : ¬ MaxQuantity < normQty req.quantity)
    (hsm : ¬ (env.singleModel = true ∧ st.userSubs ≠ []))
    (hplan : findPlan st.plans req.subscribeId = some sub)
    (hsell : sub.sell = true) (hinv : sub.inventory ≠ 0)
    (hquota : ¬ (0 < sub.quota ∧
      sub.quota ≤ (quotaCount st.userSubs req.subscribeId : Int)))
    (hbase : MaxOrderAmount < baseAmountOf sub (normQty req.quantity)) :
    Purchase env st req = ⟨.error .invalidParams, st, none, false⟩ := by
  simp only [Purchase, purchaseCheckout]
  rw [if_neg hq, if_neg hsm, hplan]
  dsimp only
  rw [if_neg (by simp [hsell]), if_neg hinv, if_neg hquota, if_pos hbase]

lemma Purchase_couponStep_error (env : Env) (st : DBState)
    (req : PurchaseReq) (sub : Plan) (e : Err)
    (hq : ¬ MaxQuantity < normQty req.quantity)
    (hsm : ¬ (env.singleModel = true ∧ st.userSubs ≠ []))
    (hplan : findPlan st.plans req.subscribeId = some sub)
    (hsell : sub.sell = true) (hinv : sub.inventory ≠ 0)
    (hquota : ¬ (0 < sub.quota ∧
      sub.quota ≤ (quotaCount st.userSubs req.subscribeId : Int)))
    (hbase : ¬ MaxOrderAmount < baseAmountOf sub (normQty req.quantity))
    (hcoup : couponStep st env.uid req.subscribeId req.coupon
      (baseAmountOf sub (normQty req.quantity)) = .error e) :
    Purchase env st req = ⟨.error e, st, none, false⟩ := by
  simp only [Purchase, purchaseCheckout]
  rw [if_neg hq, if_neg hsm, hplan]
  dsimp only
  rw [if_neg (by simp [hsell]), if_neg hinv, if_neg hquota, if_neg hbase,
    hcoup]

lemma Purchase_feeCeiling_reject (env : Env) (st : DBState)
    (req : PurchaseReq) (sub : Plan) (c : Int)
    (hq : ¬ MaxQuantity < normQty req.quantity)
    (hsm : ¬ (env.singleModel = true ∧ st.userSubs ≠ []))
    (hplan : findPlan st.plans req.subscribeId = some sub)
    (hsell : sub.sell = true) (hinv : sub.inventory ≠ 0)
    (hquota : ¬ (0 < sub.quota ∧
      sub.quota ≤ (quotaCount st.userSubs req.subscribeId : Int)))
    (hbase : ¬ MaxOrderAmount < baseAmountOf sub (normQty req.quantity))
    (hcoup : couponStep st env.uid req.subscribeId req.coupon
      (baseAmountOf sub (normQty req.quantity)) = .ok c)
    (hrem : 0 < (applyGift st.giftAmount
      (baseAmountOf sub (normQty req.quantity) - c)).remaining)
    (hfee : MaxOrderAmount < (applyGift st.giftAmount
        (baseAmountOf sub (normQty req.quantity) - c)).remaining +
      calculateFee (applyGift st.giftAmount
        (baseAmountOf sub (normQty req.quantity) - c)).remaining
        env.payment) :
    Purchase env st req = ⟨.error .invalidParams, st, none, false⟩ := by
  simp only [Purchase, purchaseCheckout]
  rw [if_neg hq, if_neg hsm, hplan]
  dsimp only
  rw [if_neg (by simp [hsell]), if_neg hinv, if_neg hquota, if_neg hbase,
    hcoup]
  dsimp only
  rw [if_pos hrem, if_pos hfee]

lemma Renewal_quantity_reject (env : Env) (st : DBState)
    (req : RenewalReq) (hq : MaxQuantity < normQty req.quantity) :
    Renewal env st req = ⟨.error .invalidParams, st, none, false⟩ := by
  simp only [Renewal, renewalCheckout]
  rw [if_pos hq]

lemma Renewal_couponStep_error (env : Env) (st : DBState)
    (req : RenewalReq) (usub : UserSub) (sub : Plan) (e : Err)
    (hq : ¬ MaxQuantity < normQty req.quantity)
    (husub : findUserSub st.userSubs req.userSubscribeId = some usub)
    (hplan : findPlan st.plans usub.subscribeId = some sub)
    (hsell : sub.sell = true)
    (hbase : ¬ MaxOrderAmount < baseAmountOf sub (normQty req.quantity))
    (hcoup : couponStep st env.uid usub.subscribeId req.coupon
      (baseAmountOf sub (normQty req.quantity)) = .error e) :
    Renewal env st req = ⟨.error e, st, none, false⟩ := by
  simp only [Renewal, renewalCheckout]
  rw [if_neg hq, husub]
  dsimp only
  rw [hplan]
  dsimp only
  rw [if_neg (by simp [hsell]), if_neg hbase, hcoup]

lemma Renewal_feeCeiling_reject (env : Env) (st : DBState)
    (req : RenewalReq) (usub : UserSub) (sub : Plan) (c : Int)
    (hq : ¬ MaxQuantity < normQty req.quantity)
    (husub : findUserSub st.userSubs req.userSubscribeId = some usub)
    (hplan : findPlan st.plans usub.subscribeId = some sub)
    (hsell : sub.sell = true)
    (hbase : ¬ MaxOrderAmount < baseAmountOf sub (normQty req.quantity))
    (hcoup : couponStep st env.uid usub.subscribeId req.coupon
      (baseAmountOf sub (normQty req.quantity)) = .ok c)
    (hrem : 0 < (applyGift st.giftAmount
      (baseAmountOf sub (normQty req.quantity) - c)).remaining)
    (hfee : MaxOrderAmount < (applyGift st.giftAmount
        (baseAmountOf sub (normQty req.quantity) - c)).remaining +
      calculateFee (applyGift st.giftAmount
        (baseAmountOf sub (normQty req.quantity) - c)).remaining
        env.payment) :
    Renewal env st req = ⟨.error .invalidParams, st, none, false⟩ := by
  simp only [Renewal, renewalCheckout]
  rw [if_neg hq, husub]
  dsimp only
  rw [hplan]
  dsimp only
  rw [if_neg (by simp [hsell]), if_neg hbase, hcoup]
  dsimp only
  rw [if_pos hrem, if_pos hfee]

lemma couponStep_error_cases (st : DBState) (uid pid : Int)
    (code : String) (amount : Int) (hne : code ≠ "") :
    (findCoupon st.coupons code = none →
      couponStep st uid pid code amount = .error .couponNotExist) ∧
    (∀ ci, findCoupon st.coupons code = some ci →
      ci.count ≠ 0 → ci.count ≤ ci.usedCount →
      couponStep st uid pid code amount =
        .error .couponInsufficientUsage) ∧
    (∀ ci, findCoupon st.coupons code = some ci →
      ¬ (ci.count ≠ 0 ∧ ci.count ≤ ci.usedCount) →
      ci.subscribe ≠ [] → pid ∉ ci.subscribe →
      couponStep st uid pid code amount = .error .couponNotApplicable) ∧
    (∀ ci, findCoupon st.coupons code = some ci →
      ¬ (ci.count ≠ 0 ∧ ci.count ≤ ci.usedCount) →
      ¬ (ci.subscribe ≠ [] ∧ pid ∉ ci.subscribe) →
      ci.userLimit ≤ (couponOrderCount st.orders uid code : Int) →
      couponStep st uid pid code amount =
        .error .couponInsufficientUsage) := by
  refine ⟨?_, ?_, ?_, ?_⟩
  · intro hf
    unfold couponStep
    rw [if_neg hne, hf]
  · intro ci hf h1 h2
    unfold couponStep
    rw [if_neg hne, hf]
    dsimp only
    rw [if_pos ⟨h1, h2⟩]
  · intro ci hf h1 h2 h3
    unfold couponStep
    rw [if_neg hne, hf]
    dsimp only
    rw [if_neg h1, if_pos ⟨h2, h3⟩]
  · intro ci hf h1 h2 h3
    unfold couponStep
    rw [if_neg hne, hf]
    dsimp only
    rw [if_neg h1, if_neg h2, if_pos h3]

lemma Recharge_cases (env : Env) (st : DBState) (req : RechargeReq) :
    (req.amount ≤ 0 ∧
      Recharge env st req = ⟨.error .invalidParams, st, none, false⟩) ∨
    (¬ req.amount ≤ 0 ∧ MaxRechargeAmount < req.amount ∧
      Recharge env st req = ⟨.error .invalidParams, st, none, false⟩) ∨
    (¬ req.amount ≤ 0 ∧ ¬ MaxRechargeAmount < req.amount ∧
      MaxOrderAmount < req.amount + calculateFee req.amount env.payment ∧
      Recharge env st req = ⟨.error .invalidParams, st, none, false⟩) ∨
    (¬ req.amount ≤ 0 ∧ ¬ MaxRechargeAmount < req.amount ∧
      ¬ MaxOrderAmount < req.amount + calculateFee req.amount env.payment ∧
      Recharge env st req = finishOrder env st
        (if env.flags.orderInsertOk then
          some { st with orders := st.orders ++
            [mkRechargeOrder env req (calculateFee req.amount env.payment)
              (req.amount + calculateFee req.amount env.payment)] }
        else none)) := by
  by_cases h1 : req.amount ≤ 0
  · left
    exact ⟨h1, by simp only [Recharge]; rw [if_pos h1]⟩
  · by_cases h2 : MaxRechargeAmount < req.amount
    · right; left
      exact ⟨h1, h2, by simp only [Recharge]; rw [if_neg h1, if_pos h2]⟩
    · by_cases h3 : MaxOrderAmount <
          req.amount + calculateFee req.amount env.payment
      · right; right; left
        exact ⟨h1, h2, h3, by
          simp only [Recharge]
          rw [if_neg h1, if_neg h2, if_pos h3]⟩
      · right; right; right
        exact ⟨h1, h2, h3, by
          simp only [Recharge]
          rw [if_neg h1, if_neg h2, if_neg h3]⟩

lemma Purchase_enqueueOk_independent (env : Env) (st : DBState)
    (req : PurchaseReq) (b : Bool) :
    (Purchase { env with enqueueOk := b } st req).resp =
      (Purchase env st req).resp ∧
    (Purchase { env with enqueueOk := b } st req).state =
      (Purchase env st req).state ∧
    (Purchase { env with enqueueOk := b } st req).task =
      (Purchase env st req).task := by
  have hck : purchaseCheckout { env with enqueueOk := b } st req =
      purchaseCheckout env st req := rfl
  rcases Purchase_cases { env with enqueueOk := b } st req with
    ⟨e2, hc2, hP2⟩ | ⟨sub2, o2, g2, hc2, hP2⟩ <;>
    rcases Purchase_cases env st req with
      ⟨e, hc, hP⟩ | ⟨sub, o, g, hc, hP⟩ <;>
    rw [hck, hc] at hc2
  · injection hc2 with h
    subst h
    rw [hP, hP2]
    exact ⟨rfl, rfl, rfl⟩
  · cases hc2
  · cases hc2
  · simp only [Except.ok.injEq, Prod.mk.injEq] at hc2
    obtain ⟨rfl, rfl, rfl⟩ := hc2
    rw [hP, hP2]
    have hfl : purchaseTxBody ({ env with enqueueOk := b } : Env).flags
        sub o g.newBalance st =
        purchaseTxBody env.flags sub o g.newBalance st := rfl
    rw [hfl]
    cases ht : purchaseTxBody env.flags sub o g.newBalance st with
    | none => rw [finishOrder_none, finishOrder_none]; exact ⟨rfl, rfl, rfl⟩
    | some st2 =>
      rw [finishOrder_some, finishOrder_some]
      exact ⟨rfl, rfl, rfl⟩

lemma Renewal_enqueueOk_independent (env : Env) (st : DBState)
    (req : RenewalReq) (b : Bool) :
    (Renewal { env with enqueueOk := b } st req).resp =
      (Renewal env st req).resp ∧
    (Renewal { env with enqueueOk := b } st req).state =
      (Renewal env st req).state ∧
    (Renewal { env with enqueueOk := b } st req).task =
      (Renewal env st req).task := by
  have hck : renewalCheckout { env with enqueueOk := b } st req =
      renewalCheckout env st req := rfl
  rcases Renewal_cases { env with enqueueOk := b } st req with
    ⟨e2, hc2, hP2⟩ | ⟨o2, g2, hc2, hP2⟩ <;>
    rcases Renewal_cases env st req with
      ⟨e, hc, hP⟩ | ⟨o, g, hc, hP⟩ <;>
    rw [hck, hc] at hc2
  · injection hc2 with h
    subst h
    rw [hP, hP2]
    exact ⟨rfl, rfl, rfl⟩
  · cases hc2
  · cases hc2
  · simp only [Except.ok.injEq, Prod.mk.injEq] at hc2
    obtain ⟨rfl, rfl⟩ := hc2
    rw [hP, hP2]
    have hfl : renewalTxBody ({ env with enqueueOk := b } : Env).flags
        o g.newBalance st =
        renewalTxBody env.flags o g.newBalance st := rfl
    rw [hfl]
    cases ht : renewalTxBody env.flags o g.newBalance st with
    | none => rw [finishOrder_none, finishOrder_none]; exact ⟨rfl, rfl, rfl⟩
    | some st2 =>
      rw [finishOrder_some, finishOrder_some]
      exact ⟨rfl, rfl, rfl⟩

lemma Recharge_enqueueOk_independent (env : Env) (st : DBState)
    (req : RechargeReq) (b : Bool) :
    (Recharge { env with enqueueOk := b } st req).resp =
      (Recharge env st req).resp ∧
    (Recharge { env with enqueueOk := b } st req).state =
      (Recharge env st req).state ∧
    (Recharge { env with enqueueOk := b } st req).task =
      (Recharge env st req).task := by
  simp only [Recharge]
  by_cases h1 : req.amount ≤ 0
  · rw [if_pos h1, if_pos h1]
    exact ⟨rfl, rfl, rfl⟩
  · rw [if_neg h1, if_neg h1]
    by_cases h2 : MaxRechargeAmount < req.amount
    · rw [if_pos h2, if_pos h2]
      exact ⟨rfl, rfl, rfl⟩
    · rw [if_neg h2, if_neg h2]
      by_cases h3 : MaxOrderAmount <
          req.amount + calculateFee req.amount env.payment
      · rw [if_pos h3, if_pos h3]
        exact ⟨rfl, rfl, rfl⟩
      · rw [if_neg h3, if_neg h3]
        cases hins : env.flags.orderInsertOk with
        | false =>
          rw [if_neg (by simp [hins]), if_neg (by simp [hins]),
            finishOrder_none, finishOrder_none]
          exact ⟨rfl, rfl, rfl⟩
        | true =>
          rw [if_pos (by simp [hins]), if_pos (by simp [hins]),
            finishOrder_some, finishOrder_some]
          exact ⟨rfl, rfl, rfl⟩

/-- C1: every order record stored by a successful Purchase, Renewal or
Recharge run satisfies finalAmount = listPrice − discountAmount −
couponDiscount − giftDeduction + feeAmount exactly, and the running
amount lies within [0, MaxOrderAmount] after the discount, coupon, gift
and fee stages of the computation, given nonnegative unit prices,
coupon parameters and gift balance. -/
theorem c1_order_pricing_invariant (env : Env) (st : DBState)
    (hu : ∀ p ∈ st.plans, 0 ≤ p.unitPrice)
    (hcs : ∀ cp ∈ st.coupons, 0 ≤ cp.value ∧ 0 ≤ cp.cap)
    (hg : 0 ≤ st.giftAmount) :
    (∀ req n o, (Purchase env st req).resp = .ok n →
      (Purchase env st req).state.orders = st.orders ++ [o] →
      orderInvariant o) ∧
    (∀ req n o, (Renewal env st req).resp = .ok n →
      (Renewal env st req).state.orders = st.orders ++ [o] →
      orderInvariant o) ∧
    (∀ req n o, (Recharge env st req).resp = .ok n →
      (Recharge env st req).state.orders = st.orders ++ [o] →
      orderInvariant o) := by
  refine ⟨?_, ?_, ?_⟩
  · intro req n o hok hord
    obtain ⟨sub, o2, g, st2, hc, ht, hstate, hn, htask⟩ :=
      Purchase_ok_inv env st req n hok
    obtain ⟨hords, -, -, -, -, -⟩ := purchaseTxBody_some _ _ _ _ _ _ ht
    rw [hstate, hords] at hord
    have ho : o2 = o := by
      have h12 := List.append_cancel_left hord
      simpa using h12
    subst ho
    obtain ⟨hplan, hsell, hinvne, hqle, hbase, c, hcoup, hgdef, hodef,
      hfeeEq, hamtEq, hamtle⟩ := purchaseCheckout_ok_inv env st req sub o2 g hc
    have hup : 0 ≤ sub.unitPrice := hu sub (findPlan_mem _ _ _ hplan)
    have hq1 : 1 ≤ normQty req.quantity := normQty_pos _
    obtain ⟨hB0, hBP⟩ := baseAmountOf_bounds sub (normQty req.quantity)
      hup (by omega)
    obtain ⟨hc0, hcB⟩ := couponStep_ok_bounds st env.uid req.subscribeId
      req.coupon (baseAmountOf sub (normQty req.quantity)) c hB0 hcs hcoup
    have hGS := applyGift_spec st.giftAmount
      (baseAmountOf sub (normQty req.quantity) - c) hg (by omega)
    rw [← hgdef] at hGS
    obtain ⟨hd0, hdb, hda, hremEq, hrem0, hnbEq, hnb0⟩ := hGS
    have hfee0 : 0 ≤ o2.feeAmount := by
      rw [hfeeEq]
      split
      · exact calculateFee_nonneg _ _
      · exact le_refl 0
    have hprice : o2.price = listPriceOf sub (normQty req.quantity) := by
      rw [hodef]
      rfl
    have hdisc : o2.discount = listPriceOf sub (normQty req.quantity) -
        baseAmountOf sub (normQty req.quantity) := by
      rw [hodef]
      rfl
    have hcd : o2.couponDiscount = c := by
      rw [hodef]
      rfl
    have hga : o2.giftAmount = g.deduction := by
      rw [hodef]
      rfl
    unfold orderInvariant orderStage3 orderStage2 orderStage1
    rw [hprice, hdisc, hcd, hga]
    refine ⟨by omega, by omega, by omega, by omega, by omega⟩
  · intro req n o hok hord
    obtain ⟨o2, g, st2, hc, ht, hstate, hn, htask⟩ :=
      Renewal_ok_inv env st req n hok
    obtain ⟨hords, -, -, -, -, -⟩ := renewalTxBody_some _ _ _ _ _ ht
    rw [hstate, hords] at hord
    have ho : o2 = o := by
      have h12 := List.append_cancel_left hord
      simpa using h12
    subst ho
    obtain ⟨usub, sub, husub, hplan, hsell, hqle, hbase, c, hcoup, hgdef,
      hodef, hfeeEq, hamtEq, hamtle⟩ :=
      renewalCheckout_ok_inv env st req o2 g hc
    have hup : 0 ≤ sub.unitPrice := hu sub (findPlan_mem _ _ _ hplan)
    have hq1 : 1 ≤ normQty req.quantity := normQty_pos _
    obtain ⟨hB0, hBP⟩ := baseAmountOf_bounds sub (normQty req.quantity)
      hup (by omega)
    obtain ⟨hc0, hcB⟩ := couponStep_ok_bounds st env.uid usub.subscribeId
      req.coupon (baseAmountOf sub (normQty req.quantity)) c hB0 hcs hcoup
    have hGS := applyGift_spec st.giftAmount
      (baseAmountOf sub (normQty req.quantity) - c) hg (by omega)
    rw [← hgdef] at hGS
    obtain ⟨hd0, hdb, hda, hremEq, hrem0, hnbEq, hnb0⟩ := hGS
    have hfee0 : 0 ≤ o2.feeAmount := by
      rw [hfeeEq]
      split
      · exact calculateFee_nonneg _ _
      · exact le_refl 0
    have hprice : o2.price = listPriceOf sub (normQty req.quantity) := by
      rw [hodef]
      rfl
    have hdisc : o2.discount = listPriceOf sub (normQty req.quantity) -
        baseAmountOf sub (normQty req.quantity) := by
      rw [hodef]
      rfl
    have hcd : o2.couponDiscount = c := by
      rw [hodef]
      rfl
    have hga : o2.giftAmount = g.deduction := by
      rw [hodef]
      rfl
    unfold orderInvariant orderStage3 orderStage2 orderStage1
    rw [hprice, hdisc, hcd, hga]
    refine ⟨by omega, by omega, by omega, by omega, by omega⟩
  · intro req n o hok hord
    rcases Recharge_cases env st req with ⟨h1, hR⟩ | ⟨h1, h2, hR⟩ |
      ⟨h1, h2, h3, hR⟩ | ⟨h1, h2, h3, hR⟩
    · rw [hR] at hok; cases hok
    · rw [hR] at hok; cases hok
    · rw [hR] at hok; cases hok
    · rw [hR] at hok hord
      cases hins : env.flags.orderInsertOk with
      | false =>
        rw [if_neg (by simp [hins]), finishOrder_none] at hok
        cases hok
      | true =>
        rw [if_pos (by simp [hins]), finishOrder_some] at hord
        have ho : mkRechargeOrder env req
            (calculateFee req.amount env.payment)
            (req.amount + calculateFee req.amount env.payment) = o := by
          have h12 := List.append_cancel_left hord
          simpa using h12
        have hfee0 := calculateFee_nonneg req.amount env.payment
        have hRle : MaxRechargeAmount ≤ MaxOrderAmount := by
          unfold MaxRechargeAmount MaxOrderAmount
          norm_num
        rw [← ho]
        unfold orderInvariant orderStage3 orderStage2 orderStage1
          mkRechargeOrder
        dsimp only
        refine ⟨by omega, by omega, by omega, by omega, by omega⟩

/-- Witness for C1: the base purchase scenario (unit price 1000,
quantity 3, no discount, coupon, gift or fee) stores an order
satisfying the pricing invariant. -/
theorem c1_witness : orderInvariant oP1 :=
  (c1_order_pricing_invariant env0 st0 (by decide) (by decide)
    (by decide)).1 req0 "P1" oP1 (by decide) (by decide)

/-- Counterexample for C2: a successful renewal against a plan with
finite inventory commits the order insert but no inventory decrement,
so the four writes named by the claim are not committed as one unit for
the Renewal workflow. -/
theorem c2_counterexample :
    (Renewal env0 stR reqR).resp = .ok "P1" ∧
    findPlan stR.plans usub0.subscribeId = some plan0 ∧
    plan0.inventory = 10 ∧
    (Renewal env0 stR reqR).state.orders ≠ stR.orders ∧
    (Renewal env0 stR reqR).state.plans = stR.plans := by decide

/-- C2 (amended): the purchase transaction commits the gift-balance
update, the gift-ledger insert, the inventory decrement (for finite
inventory) and the order insert atomically, and every failure leaves
the store untouched with no order number returned; the renewal
transaction is likewise atomic but comprises only the gift-balance
update, the ledger insert and the order insert — it never touches
inventory. -/
theorem c2_fulfillment_atomicity (env : Env) (st : DBState) :
    (∀ req e, (Purchase env st req).resp = .error e →
      (Purchase env st req).state = st) ∧
    (∀ req n, (Purchase env st req).resp = .ok n →
      ∃ sub o, findPlan st.plans req.subscribeId = some sub ∧
        (Purchase env st req).state.orders = st.orders ++ [o] ∧
        (Purchase env st req).state.giftAmount =
          (if 0 < o.giftAmount then st.giftAmount - o.giftAmount
          else st.giftAmount) ∧
        (Purchase env st req).state.giftLogs =
          (if 0 < o.giftAmount then st.giftLogs ++
            [⟨.decrease, o.orderNo, o.giftAmount,
              st.giftAmount - o.giftAmount⟩]
          else st.giftLogs) ∧
        (Purchase env st req).state.plans =
          (if sub.inventory ≠ -1 then
            st.plans.map (fun p => if p.id = sub.id then
              { sub with inventory := sub.inventory - 1 } else p)
          else st.plans)) ∧
    (∀ req e, (Renewal env st req).resp = .error e →
      (Renewal env st req).state = st) ∧
    (∀ req n, (Renewal env st req).resp = .ok n →
      ∃ o, (Renewal env st req).state.orders = st.orders ++ [o] ∧
        (Renewal env st req).state.giftAmount =
          (if 0 < o.giftAmount then st.giftAmount - o.giftAmount
          else st.giftAmount) ∧
        (Renewal env st req).state.giftLogs =
          (if 0 < o.giftAmount then st.giftLogs ++
            [⟨.decrease, o.orderNo, o.giftAmount,
              st.giftAmount - o.giftAmount⟩]
          else st.giftLogs) ∧
        (Renewal env st req).state.plans = st.plans) := by
  refine ⟨?_, ?_, ?_, ?_⟩
  · intro req e h
    exact (Purchase_error_state env st req e h).1
  · intro req n hok
    obtain ⟨sub, o, g, st2, hc, ht, hstate, hn, htask⟩ :=
      Purchase_ok_inv env st req n hok
    obtain ⟨hplan, -, -, -, -, c, hcoup, hgdef, hodef, -, -, -⟩ :=
      purchaseCheckout_ok_inv env st req sub o g hc
    obtain ⟨hords, hgam, hlogs, hplans, -, -⟩ :=
      purchaseTxBody_some _ _ _ _ _ _ ht
    have hnb : g.newBalance = st.giftAmount - g.deduction := by
      rw [hgdef]
      exact (applyGift_eqs _ _).2
    have hga : o.giftAmount = g.deduction := by
      rw [hodef]
      rfl
    refine ⟨sub, o, hplan, ?_, ?_, ?_, ?_⟩
    · rw [hstate, hords]
    · rw [hstate, hgam, hnb, hga]
    · rw [hstate, hlogs, hnb, hga]
    · rw [hstate, hplans]
  · intro req e h
    exact (Renewal_error_state env st req e h).1
  · intro req n hok
    obtain ⟨o, g, st2, hc, ht, hstate, hn, htask⟩ :=
      Renewal_ok_inv env st req n hok
    obtain ⟨usub, sub, husub, hplan, -, -, -, c, hcoup, hgdef, hodef,
      -, -, -⟩ := renewalCheckout_ok_inv env st req o g hc
    obtain ⟨hords, hgam, hlogs, hplans, -, -⟩ :=
      renewalTxBody_some _ _ _ _ _ ht
    have hnb : g.newBalance = st.giftAmount - g.deduction := by
      rw [hgdef]
      exact (applyGift_eqs _ _).2
    have hga : o.giftAmount = g.deduction := by
      rw [hodef]
      rfl
    refine ⟨o, ?_, ?_, ?_, ?_⟩
    · rw [hstate, hords]
    · rw [hstate, hgam, hnb, hga]
    · rw [hstate, hlogs, hnb, hga]
    · rw [hstate, hplans]

/-- Witness for C2: a rejected purchase (quantity beyond the cap)
leaves the store exactly as it was. -/
theorem c2_witness : (Purchase env0 st0 ⟨1, 2000, "", 7⟩).state = st0 :=
  (c2_fulfillment_atomicity env0 st0).1 ⟨1, 2000, "", 7⟩ .invalidParams
    (by decide)

/-- Counterexample for C3: with single-subscription mode on, a held
subscription, and a not-for-sale plan, the purchase is rejected with
the single-subscription error, not the sellability error the claimed
validation order (sellable second, single-subscription fifth) would
produce. -/
theorem c3_counterexample :
    (Purchase envSM stNS ⟨1, 1, "", 7⟩).resp = .error .userSubscribeExist ∧
    (Purchase envSM stNS ⟨1, 1, "", 7⟩).resp ≠ .error .generalError ∧
    findPlan stNS.plans 1 = some planNS ∧
    planNS.sell = false ∧
    envSM.singleModel = true ∧ stNS.userSubs ≠ [] := by decide

/-- C3 (amended): the purchase validations run in this order, failing
fast on the first violation: quantity cap, single-subscription mode,
plan sellable, inventory, per-user quota, amount ceiling after the
discount, then the coupon checks; each rejection leaves the store
unchanged. -/
theorem c3_purchase_validation_order (env : Env) (st : DBState)
    (req : PurchaseReq) :
    (MaxQuantity < normQty req.quantity →
      Purchase env st req = ⟨.error .invalidParams, st, none, false⟩) ∧
    (¬ MaxQuantity < normQty req.quantity →
      env.singleModel = true → st.userSubs ≠ [] →
      Purchase env st req = ⟨.error .userSubscribeExist, st, none, false⟩) ∧
    (∀ sub, ¬ MaxQuantity < normQty req.quantity →
      ¬ (env.singleModel = true ∧ st.userSubs ≠ []) →
      findPlan st.plans req.subscribeId = some sub →
      sub.sell = false →
      Purchase env st req = ⟨.error .generalError, st, none, false⟩) ∧
    (∀ sub, ¬ MaxQuantity < normQty req.quantity →
      ¬ (env.singleModel = true ∧ st.userSubs ≠ []) →
      findPlan st.plans req.subscribeId = some sub →
      sub.sell = true → sub.inventory = 0 →
      Purchase env st req =
        ⟨.error .subscribeOutOfStock, st, none, false⟩) ∧
    (∀ sub, ¬ MaxQuantity < normQty req.quantity →
      ¬ (env.singleModel = true ∧ st.userSubs ≠ []) →
      findPlan st.plans req.subscribeId = some sub →
      sub.sell = true → sub.inventory ≠ 0 →
      0 < sub.quota ∧
        sub.quota ≤ (quotaCount st.userSubs req.subscribeId : Int) →
      Purchase env st req =
        ⟨.error .subscribeQuotaLimit, st, none, false⟩) ∧
    (∀ sub, ¬ MaxQuantity < normQty req.quantity →
      ¬ (env.singleModel = true ∧ st.userSubs ≠ []) →
      findPlan st.plans req.subscribeId = some sub →
      sub.sell = true → sub.inventory ≠ 0 →
      ¬ (0 < sub.quota ∧
        sub.quota ≤ (quotaCount st.userSubs req.subscribeId : Int)) →
      MaxOrderAmount < baseAmountOf sub (normQty req.quantity) →
      Purchase env st req = ⟨.error .invalidParams, st, none, false⟩) ∧
    (∀ sub e, ¬ MaxQuantity < normQty req.quantity →
      ¬ (env.singleModel = true ∧ st.userSubs ≠ []) →
      findPlan st.plans req.subscribeId = some sub →
      sub.sell = true → sub.inventory ≠ 0 →
      ¬ (0 < sub.quota ∧
        sub.quota ≤ (quotaCount st.userSubs req.subscribeId : Int)) →
      ¬ MaxOrderAmount < baseAmountOf sub (normQty req.quantity) →
      couponStep st env.uid req.subscribeId req.coupon
        (baseAmountOf sub (normQty req.quantity)) = .error e →
      Purchase env st req = ⟨.error e, st, none, false⟩) := by
  refine ⟨?_, ?_, ?_, ?_, ?_, ?_, ?_⟩
  · exact Purchase_quantity_reject env st req
  · exact Purchase_single_reject env st req
  · exact fun sub => Purchase_notsell_reject env st req sub
  · exact fun sub => Purchase_outOfStock_reject env st req sub
  · exact fun sub => Purchase_quota_reject env st req sub
  · exact fun sub => Purchase_ceiling_reject env st req sub
  · exact fun sub e => Purchase_couponStep_error env st req sub e

/-- Witness for C3: the single-subscription rejection fires on the
concrete fixture. -/
theorem c3_witness : Purchase envSM stNS ⟨1, 1, "", 7⟩ =
    ⟨.error .userSubscribeExist, stNS, none, false⟩ :=
  (c3_purchase_validation_order envSM stNS ⟨1, 1, "", 7⟩).2.1
    (by decide) (by decide) (by decide)

/-- Counterexample for C4: a successful renewal order against a plan
with inventory 10 leaves the inventory at 10 — no decrement happens,
contradicting the claim for order-creating renewal requests. -/
theorem c4_counterexample :
    (Renewal env0 stR reqR).resp = .ok "P1" ∧
    plan0.inventory = 10 ∧
    (Renewal env0 stR reqR).state.plans = [plan0] ∧
    (Renewal env0 stR reqR).state.orders.length = 1 := by decide

/-- C4 (amended): in the purchase workflow an inventory of 0 rejects
with the out-of-stock error, an inventory of -1 is never decremented,
and a finite inventory is decremented by exactly 1 per successful order
regardless of the requested quantity; the renewal and recharge
workflows never modify plan inventory at all. -/
theorem c4_inventory_semantics (env : Env) (st : DBState) :
    (∀ req sub, ¬ MaxQuantity < normQty req.quantity →
      ¬ (env.singleModel = true ∧ st.userSubs ≠ []) →
      findPlan st.plans req.subscribeId = some sub →
      sub.sell = true → sub.inventory = 0 →
      Purchase env st req =
        ⟨.error .subscribeOutOfStock, st, none, false⟩) ∧
    (∀ req n sub, (Purchase env st req).resp = .ok n →
      findPlan st.plans req.subscribeId = some sub →
      ((sub.inventory = -1 →
        (Purchase env st req).state.plans = st.plans) ∧
       (sub.inventory ≠ -1 →
        (Purchase env st req).state.plans =
          st.plans.map (fun p => if p.id = sub.id then
            { sub with inventory := sub.inventory - 1 } else p)))) ∧
    (∀ req, (Renewal env st req).state.plans = st.plans) ∧
    (∀ req, (Recharge env st req).state.plans = st.plans) := by
  refine ⟨?_, ?_, ?_, ?_⟩
  · exact fun req sub => Purchase_outOfStock_reject env st req sub
  · intro req n sub hok hplan
    obtain ⟨sub2, o, g, st2, hc, ht, hstate, hn, htask⟩ :=
      Purchase_ok_inv env st req n hok
    obtain ⟨hplan2, -, -, -, -, -⟩ :=
      purchaseCheckout_ok_inv env st req sub2 o g hc
    rw [hplan] at hplan2
    injection hplan2 with hss
    subst hss
    obtain ⟨-, -, -, hplans, -, -⟩ := purchaseTxBody_some _ _ _ _ _ _ ht
    constructor
    · intro hm1
      rw [hstate, hplans, if_neg (by simp [hm1])]
    · intro hm1
      rw [hstate, hplans, if_pos hm1]
  · intro req
    rcases Renewal_cases env st req with ⟨e, hc, hP⟩ | ⟨o, g, hc, hP⟩
    · rw [hP]
    · rw [hP]
      cases ht : renewalTxBody env.flags o g.newBalance st with
      | none => rw [finishOrder_none]
      | some st2 =>
        rw [finishOrder_some]
        exact (renewalTxBody_some _ _ _ _ _ ht).2.2.2.1
  · intro req
    rcases Recharge_cases env st req with ⟨h1, hR⟩ | ⟨h1, h2, hR⟩ |
      ⟨h1, h2, h3, hR⟩ | ⟨h1, h2, h3, hR⟩ <;> rw [hR]
    cases hins : env.flags.orderInsertOk with
    | false => rw [if_neg (by simp [hins]), finishOrder_none]
    | true => rw [if_pos (by simp [hins]), finishOrder_some]

/-- Witness for C4: a purchase against the sold-out plan is rejected
out-of-stock with the store unchanged. -/
theorem c4_witness : Purchase env0 stOOS ⟨3, 1, "", 7⟩ =
    ⟨.error .subscribeOutOfStock, stOOS, none, false⟩ :=
  (c4_inventory_semantics env0 stOOS).1 ⟨3, 1, "", 7⟩ planOOS
    (by decide) (by decide) (by decide) (by decide) (by decide)

/-- C5: a supplied coupon must exist, have remaining global uses (a
zero total count meaning unlimited), apply to the target plan (an empty
allow-list meaning universal), and the user's prior-order count for the
code — counted from the order table — must be strictly below the
per-user limit; the first violated condition rejects with its coupon
error kind, and both the purchase and renewal workflows then return
that error with the store unchanged. -/
theorem c5_coupon_checks (env : Env) (st : DBState) :
    (∀ uid pid code amount, code ≠ "" →
      (findCoupon st.coupons code = none →
        couponStep st uid pid code amount = .error .couponNotExist) ∧
      (∀ ci, findCoupon st.coupons code = some ci →
        ci.count ≠ 0 → ci.count ≤ ci.usedCount →
        couponStep st uid pid code amount =
          .error .couponInsufficientUsage) ∧
      (∀ ci, findCoupon st.coupons code = some ci →
        ¬ (ci.count ≠ 0 ∧ ci.count ≤ ci.usedCount) →
        ci.subscribe ≠ [] → pid ∉ ci.subscribe →
        couponStep st uid pid code amount =
          .error .couponNotApplicable) ∧
      (∀ ci, findCoupon st.coupons code = some ci →
        ¬ (ci.count ≠ 0 ∧ ci.count ≤ ci.usedCount) →
        ¬ (ci.subscribe ≠ [] ∧ pid ∉ ci.subscribe) →
        ci.userLimit ≤ (couponOrderCount st.orders uid code : Int) →
        couponStep st uid pid code amount =
          .error .couponInsufficientUsage)) ∧
    (∀ req sub e, ¬ MaxQuantity < normQty req.quantity →
      ¬ (env.singleModel = true ∧ st.userSubs ≠ []) →
      findPlan st.plans req.subscribeId = some sub →
      sub.sell = true → sub.inventory ≠ 0 →
      ¬ (0 < sub.quota ∧
        sub.quota ≤ (quotaCount st.userSubs req.subscribeId : Int)) →
      ¬ MaxOrderAmount < baseAmountOf sub (normQty req.quantity) →
      couponStep st env.uid req.subscribeId req.coupon
        (baseAmountOf sub (normQty req.quantity)) = .error e →
      Purchase env st req = ⟨.error e, st, none, false⟩) ∧
    (∀ req usub sub e, ¬ MaxQuantity < normQty req.quantity →
      findUserSub st.userSubs req.userSubscribeId = some usub →
      findPlan st.plans usub.subscribeId = some sub →
      sub.sell = true →
      ¬ MaxOrderAmount < baseAmountOf sub (normQty req.quantity) →
      couponStep st env.uid usub.subscribeId req.coupon
        (baseAmountOf sub (normQty req.quantity)) = .error e →
      Renewal env st req = ⟨.error e, st, none, false⟩) := by
  refine ⟨?_, ?_, ?_⟩
  · exact fun uid pid code amount hne =>
      couponStep_error_cases st uid pid code amount hne
  · exact fun req sub e => Purchase_couponStep_error env st req sub e
  · exact fun req usub sub e =>
      Renewal_couponStep_error env st req usub sub e

/-- Witness for C5: a purchase supplying an unknown coupon code is
rejected with the coupon-not-found error and no order is created. -/
theorem c5_witness : Purchase env0 st0 reqC5 =
    ⟨.error .couponNotExist, st0, none, false⟩ :=
  (c5_coupon_checks env0 st0).2.1 reqC5 plan0 .couponNotExist
    (by decide) (by decide) (by decide) (by decide) (by decide)
    (by decide) (by decide) (by decide)

/-- C6: with a nonnegative balance and charge, the gift deduction takes
the full charge when the balance covers it (remaining due zero) and the
entire balance otherwise (balance zero afterwards); the deduction never
exceeds the balance, the resulting balance is never negative, and the
transaction writes a gift-ledger entry exactly when the deduction is
positive. -/
theorem c6_gift_deduction (b a : Int) (hb : 0 ≤ b) (ha : 0 ≤ a) :
    ((a ≤ b → (applyGift b a).deduction = a ∧
      (applyGift b a).remaining = 0 ∧
      (applyGift b a).newBalance = b - a) ∧
     (b < a → (applyGift b a).deduction = b ∧
      (applyGift b a).remaining = a - b ∧
      (applyGift b a).newBalance = 0) ∧
     (applyGift b a).deduction ≤ b ∧
     0 ≤ (applyGift b a).newBalance) ∧
    (∀ flags (o : Order) (newGift : Int) (st1 st2 : DBState),
      giftTxStep flags o newGift st1 = some st2 →
      ((0 < o.giftAmount → st2.giftLogs = st1.giftLogs ++
        [⟨.decrease, o.orderNo, o.giftAmount, newGift⟩]) ∧
       (¬ 0 < o.giftAmount → st2.giftLogs = st1.giftLogs))) := by
  refine ⟨?_, ?_⟩
  · unfold applyGift
    split
    · rename_i h1
      split
      · rename_i h2
        dsimp only
        exact ⟨fun h => ⟨rfl, rfl, rfl⟩,
          fun h => ⟨by omega, by omega, by omega⟩, by omega, by omega⟩
      · rename_i h2
        dsimp only
        exact ⟨fun h => ⟨by omega, by omega, by omega⟩,
          fun h => ⟨rfl, rfl, rfl⟩, by omega, by omega⟩
    · rename_i h1
      dsimp only
      exact ⟨fun h => ⟨by omega, by omega, by omega⟩,
        fun h => ⟨by omega, by omega, by omega⟩, by omega, by omega⟩
  · intro flags o newGift st1 st2 hstep
    obtain ⟨-, -, -, -, -, e6⟩ := giftTxStep_some _ _ _ _ _ hstep
    constructor
    · intro h
      rw [e6, if_pos h]
    · intro h
      rw [e6, if_neg h]

/-- Witness for C6: balance 5000 against charge 3000 deducts 3000,
leaves nothing due, and leaves balance 2000. -/
theorem c6_witness :
    (applyGift 5000 3000).deduction = 3000 ∧
    (applyGift 5000 3000).remaining = 0 ∧
    (applyGift 5000 3000).newBalance = 2000 := by
  have h := (c6_gift_deduction 5000 3000 (by norm_num)
    (by norm_num)).1.1 (by norm_num)
  exact ⟨h.1, h.2.1, by omega⟩

/-- C7: in both purchase and renewal the payment fee is computed on the
running amount left after the coupon and gift deductions (zero when
that remainder is zero), is added on top of the remainder, and the
resulting total is checked against MaxOrderAmount again, rejecting with
the invalid-parameters error when the fee pushes it over. -/
theorem c7_fee_after_deductions (env : Env) (st : DBState) :
    (∀ req n o, (Purchase env st req).resp = .ok n →
      (Purchase env st req).state.orders = st.orders ++ [o] →
      o.feeAmount = (if 0 < orderStage3 o then
        calculateFee (orderStage3 o) env.payment else 0) ∧
      o.amount = orderStage3 o + o.feeAmount ∧
      o.amount ≤ MaxOrderAmount) ∧
    (∀ req n o, (Renewal env st req).resp = .ok n →
      (Renewal env st req).state.orders = st.orders ++ [o] →
      o.feeAmount = (if 0 < orderStage3 o then
        calculateFee (orderStage3 o) env.payment else 0) ∧
      o.amount = orderStage3 o + o.feeAmount ∧
      o.amount ≤ MaxOrderAmount) ∧
    (∀ req sub c, ¬ MaxQuantity < normQty req.quantity →
      ¬ (env.singleModel = true ∧ st.userSubs ≠ []) →
      findPlan st.plans req.subscribeId = some sub →
      sub.sell = true → sub.inventory ≠ 0 →
      ¬ (0 < sub.quota ∧
        sub.quota ≤ (quotaCount st.userSubs req.subscribeId : Int)) →
      ¬ MaxOrderAmount < baseAmountOf sub (normQty req.quantity) →
      couponStep st env.uid req.subscribeId req.coupon
        (baseAmountOf sub (normQty req.quantity)) = .ok c →
      0 < (applyGift st.giftAmount
        (baseAmountOf sub (normQty req.quantity) - c)).remaining →
      MaxOrderAmount < (applyGift st.giftAmount
          (baseAmountOf sub (normQty req.quantity) - c)).remaining +
        calculateFee (applyGift st.giftAmount
          (baseAmountOf sub (normQty req.quantity) - c)).remaining
          env.payment →
      Purchase env st req = ⟨.error .invalidParams, st, none, false⟩) ∧
    (∀ req usub sub c, ¬ MaxQuantity < normQty req.quantity →
      findUserSub st.userSubs req.userSubscribeId = some usub →
      findPlan st.plans usub.subscribeId = some sub →
      sub.sell = true →
      ¬ MaxOrderAmount < baseAmountOf sub (normQty req.quantity) →
      couponStep st env.uid usub.subscribeId req.coupon
        (baseAmountOf sub (normQty req.quantity)) = .ok c →
      0 < (applyGift st.giftAmount
        (baseAmountOf sub (normQty req.quantity) - c)).remaining →
      MaxOrderAmount < (applyGift st.giftAmount
          (baseAmountOf sub (normQty req.quantity) - c)).remaining +
        calculateFee (applyGift st.giftAmount
          (baseAmountOf sub (normQty req.quantity) - c)).remaining
          env.payment →
      Renewal env st req = ⟨.error .invalidParams, st, none, false⟩) := by
  refine ⟨?_, ?_, ?_, ?_⟩
  · intro req n o hok hord
    obtain ⟨sub, o2, g, st2, hc, ht, hstate, hn, htask⟩ :=
      Purchase_ok_inv env st req n hok
    obtain ⟨hords, -, -, -, -, -⟩ := purchaseTxBody_some _ _ _ _ _ _ ht
    rw [hstate, hords] at hord
    have ho : o2 = o := by
      have h12 := List.append_cancel_left hord
      simpa using h12
    subst ho
    obtain ⟨hplan, -, -, -, -, c, hcoup, hgdef, hodef, hfeeEq, hamtEq,
      hamtle⟩ := purchaseCheckout_ok_inv env st req sub o2 g hc
    have hprice : o2.price = listPriceOf sub (normQty req.quantity) := by
      rw [hodef]
      rfl
    have hdisc : o2.discount = listPriceOf sub (normQty req.quantity) -
        baseAmountOf sub (normQty req.quantity) := by
      rw [hodef]
      rfl
    have hcd : o2.couponDiscount = c := by
      rw [hodef]
      rfl
    have hga : o2.giftAmount = g.deduction := by
      rw [hodef]
      rfl
    have hre := (applyGift_eqs st.giftAmount
      (baseAmountOf sub (normQty req.quantity) - c)).1
    rw [← hgdef] at hre
    have hs3 : orderStage3 o2 = g.remaining := by
      unfold orderStage3 orderStage2 orderStage1
      rw [hprice, hdisc, hcd, hga]
      omega
    rw [hs3]
    exact ⟨hfeeEq, hamtEq, hamtle⟩
  · intro req n o hok hord
    obtain ⟨o2, g, st2, hc, ht, hstate, hn, htask⟩ :=
      Renewal_ok_inv env st req n hok
    obtain ⟨hords, -, -, -, -, -⟩ := renewalTxBody_some _ _ _ _ _ ht
    rw [hstate, hords] at hord
    have ho : o2 = o := by
      have h12 := List.append_cancel_left hord
      simpa using h12
    subst ho
    obtain ⟨usub, sub, husub, hplan, -, -, -, c, hcoup, hgdef, hodef,
      hfeeEq, hamtEq, hamtle⟩ :=
      renewalCheckout_ok_inv env st req o2 g hc
    have hprice : o2.price = listPriceOf sub (normQty req.quantity) := by
      rw [hodef]
      rfl
    have hdisc : o2.discount = listPriceOf sub (normQty req.quantity) -
        baseAmountOf sub (normQty req.quantity) := by
      rw [hodef]
      rfl
    have hcd : o2.couponDiscount = c := by
      rw [hodef]
      rfl
    have hga : o2.giftAmount = g.deduction := by
      rw [hodef]
      rfl
    have hre := (applyGift_eqs st.giftAmount
      (baseAmountOf sub (normQty req.quantity) - c)).1
    rw [← hgdef] at hre
    have hs3 : orderStage3 o2 = g.remaining := by
      unfold orderStage3 orderStage2 orderStage1
      rw [hprice, hdisc, hcd, hga]
      omega
    rw [hs3]
    exact ⟨hfeeEq, hamtEq, hamtle⟩
  · exact fun req sub c => Purchase_feeCeiling_reject env st req sub c
  · exact fun req usub sub c =>
      Renewal_feeCeiling_reject env st req usub sub c

/-- Witness for C7: a purchase priced exactly at the ceiling passes the
post-discount check but the one-percent fee pushes the total over, so
it is rejected with the invalid-parameters error. -/
theorem c7_witness : Purchase envFee stBig reqBig =
    ⟨.error .invalidParams, stBig, none, false⟩ :=
  (c7_fee_after_deductions envFee stBig).2.2.1 reqBig planBig 0
    (by decide) (by decide) (by decide) (by decide) (by decide)
    (by decide) (by decide) (by decide) (by decide) (by decide)

/-- C8: after a committed order-creating write, each of the three
workflows builds a close-order task carrying the returned order number
with a retry budget of 3 and a 15-minute delay, and the enqueue
outcome never changes the response, the stored state, or the task —
an enqueue failure cannot fail the request. -/
theorem c8_close_order_task (env : Env) (st : DBState) :
    (∀ req n, (Purchase env st req).resp = .ok n →
      (Purchase env st req).task =
        some ⟨n, DeferCloseOrder, 3, CloseOrderTimeMinutes⟩) ∧
    (∀ req n, (Renewal env st req).resp = .ok n →
      (Renewal env st req).task =
        some ⟨n, DeferCloseOrder, 3, CloseOrderTimeMinutes⟩) ∧
    (∀ req n, (Recharge env st req).resp = .ok n →
      (Recharge env st req).task =
        some ⟨n, DeferCloseOrder, 3, CloseOrderTimeMinutes⟩) ∧
    (∀ b req, (Purchase { env with enqueueOk := b } st req).resp =
        (Purchase env st req).resp ∧
      (Purchase { env with enqueueOk := b } st req).state =
        (Purchase env st req).state ∧
      (Purchase { env with enqueueOk := b } st req).task =
        (Purchase env st req).task) ∧
    (∀ b req, (Renewal { env with enqueueOk := b } st req).resp =
        (Renewal env st req).resp ∧
      (Renewal { env with enqueueOk := b } st req).state =
        (Renewal env st req).state ∧
      (Renewal { env with enqueueOk := b } st req).task =
        (Renewal env st req).task) ∧
    (∀ b req, (Recharge { env with enqueueOk := b } st req).resp =
        (Recharge env st req).resp ∧
      (Recharge { env with enqueueOk := b } st req).state =
        (Recharge env st req).state ∧
      (Recharge { env with enqueueOk := b } st req).task =
        (Recharge env st req).task) := by
  refine ⟨?_, ?_, ?_, ?_, ?_, ?_⟩
  · intro req n hok
    obtain ⟨sub, o, g, st2, hc, ht, hstate, hn, htask⟩ :=
      Purchase_ok_inv env st req n hok
    rw [htask, hn]
  · intro req n hok
    obtain ⟨o, g, st2, hc, ht, hstate, hn, htask⟩ :=
      Renewal_ok_inv env st req n hok
    rw [htask, hn]
  · intro req n hok
    rcases Recharge_cases env st req with ⟨h1, hR⟩ | ⟨h1, h2, hR⟩ |
      ⟨h1, h2, h3, hR⟩ | ⟨h1, h2, h3, hR⟩
    · rw [hR] at hok; cases hok
    · rw [hR] at hok; cases hok
    · rw [hR] at hok; cases hok
    · rw [hR] at hok ⊢
      cases hins : env.flags.orderInsertOk with
      | false =>
        rw [if_neg (by simp [hins]), finishOrder_none] at hok
        cases hok
      | true =>
        rw [if_pos (by simp [hins]), finishOrder_some] at hok ⊢
        injection hok with hok
        rw [hok]
  · exact fun b req => Purchase_enqueueOk_independent env st req b
  · exact fun b req => Renewal_enqueueOk_independent env st req b
  · exact fun b req => Recharge_enqueueOk_independent env st req b

/-- Witness for C8: the base purchase fixture schedules the deferred
close-order task for its order number with retry 3 and delay 15. -/
theorem c8_witness : (Purchase env0 st0 req0).task =
    some ⟨"P1", DeferCloseOrder, 3, CloseOrderTimeMinutes⟩ :=
  (c8_close_order_task env0 st0).1 req0 "P1" (by decide)

/-- C9: a recharge amount at most 0 or above MaxRechargeAmount is
rejected with the invalid-parameters error and no order is created; an
accepted amount whose fee-inclusive total exceeds MaxOrderAmount is
likewise rejected with no order created. -/
theorem c9_recharge_bounds (env : Env) (st : DBState)
    (req : RechargeReq) :
    (req.amount ≤ 0 →
      Recharge env st req = ⟨.error .invalidParams, st, none, false⟩) ∧
    (MaxRechargeAmount < req.amount →
      Recharge env st req = ⟨.error .invalidParams, st, none, false⟩) ∧
    (¬ req.amount ≤ 0 → ¬ MaxRechargeAmount < req.amount →
      MaxOrderAmount < req.amount + calculateFee req.amount env.payment →
      Recharge env st req = ⟨.error .invalidParams, st, none, false⟩) := by
  refine ⟨?_, ?_, ?_⟩
  · intro h1
    simp only [Recharge]
    rw [if_pos h1]
  · intro h2
    by_cases h1 : req.amount ≤ 0
    · simp only [Recharge]
      rw [if_pos h1]
    · simp only [Recharge]
      rw [if_neg h1, if_pos h2]
  · intro h1 h2 h3
    simp only [Recharge]
    rw [if_neg h1, if_neg h2, if_pos h3]

/-- Witness for C9: the spec scenario — a recharge of 2,100,000,000
exceeds MaxRechargeAmount (2,000,000,000) and is rejected with the
invalid-parameters error, leaving the store unchanged. -/
theorem c9_witness : Recharge env0 st0 ⟨2100000000, 7⟩ =
    ⟨.error .invalidParams, st0, none, false⟩ :=
  (c9_recharge_bounds env0 st0 ⟨2100000000, 7⟩).2.1 (by decide)

/-- Counterexample for C10: on the concrete expired-subscription
fixture with host "example.com", the second placeholder node is named
after the host, not "Subscribe Expired", so the two nodes are not both
named "Subscribe Expired" as claimed. -/
theorem c10_counterexample :
    isSubscriptionExpired 100 usubX = true ∧
    getServers subEnvX 100 usubX = .ok (createExpiredServers subEnvX.host) ∧
    (createExpiredServers subEnvX.host).map (fun n => n.name) =
      ["Subscribe Expired", "example.com"] ∧
    ¬ (∀ n ∈ createExpiredServers subEnvX.host,
        n.name = "Subscribe Expired") := by decide

/-- C10 (amended): a subscription whose expiry time is before now and
not zero is expired; for an expired subscription the handler does not
fail but returns exactly two placeholder nodes at 127.0.0.1 port 18080
over shadowsocks, the first named "Subscribe Expired" and the second
after the first line of the configured host, both backed by a server
named "Subscribe Expired"; and token resolution returns whatever
subscription the lookup finds, never failing on expiry or status. -/
theorem c10_expired_subscription_placeholders (env : SubscribeEnv)
    (now : Int) (usub : UserSubscribeRec)
    (subs : List UserSubscribeRec) (tok : String)
    (s : UserSubscribeRec) :
    (isSubscriptionExpired now usub = true ↔
      (usub.expireTimeUnix < now ∧ usub.expireTimeUnix ≠ 0)) ∧
    (isSubscriptionExpired now usub = true →
      getServers env now usub = .ok (createExpiredServers env.host) ∧
      ∃ n1 n2, createExpiredServers env.host = [n1, n2] ∧
        n1.name = "Subscribe Expired" ∧
        n2.name = getFirstHostLine env.host ∧
        n1.address = "127.0.0.1" ∧ n2.address = "127.0.0.1" ∧
        n1.port = 18080 ∧ n2.port = 18080 ∧
        n1.protocol = "shadowsocks" ∧ n2.protocol = "shadowsocks" ∧
        n1.server.name = "Subscribe Expired" ∧
        n2.server.name = "Subscribe Expired") ∧
    (subs.find? (fun x => x.token = tok) = some s →
      getUserSubscribe subs tok = .ok s) := by
  refine ⟨?_, ?_, ?_⟩
  · unfold isSubscriptionExpired
    simp
  · intro h
    constructor
    · unfold getServers
      rw [if_pos h]
    · exact ⟨_, _, rfl, rfl, rfl, rfl, rfl, rfl, rfl, rfl, rfl, rfl,
        rfl⟩
  · intro h
    unfold getUserSubscribe
    rw [h]

/-- Witness for C10: the expired fixture resolves through the token
lookup despite its status and yields the placeholder nodes. -/
theorem c10_witness :
    getServers subEnvX 100 usubX =
      .ok (createExpiredServers subEnvX.host) ∧
    getUserSubscribe [usubX] "t" = .ok usubX := by
  have h := c10_expired_subscription_placeholders subEnvX 100 usubX
    [usubX] "t" usubX
  exact ⟨(h.2.1 (by decide)).1, h.2.2 (by decide)⟩

end PPanel
